import Mathlib

/-!
Verification of the festkassa-app Order & Receipt Lifecycle Engine.

Shallow embedding of `src/src/App.tsx` (a React point-of-sale client backed by
a Supabase store).  JavaScript numbers are modelled as exact rationals (`ℚ`);
every external call (Supabase RPC / insert / update / select, PIN check, QR
rendering, clock, random token) is modelled by an environment record that fixes
the outcome of that call, so each handler becomes a pure function from the
environment and the pre-state to the post-state.  The Supabase tables touched
by the app (`orders`, `order_items`, `voids`, `print_jobs`) are carried in the
state as lists of rows.
-/

section Festkassa

/- Batteries marks the `Rat` arithmetic kernels `@[irreducible]`; making them
semireducible again lets `decide` evaluate the concrete money computations in
the witnesses and counterexamples below. -/
attribute [local semireducible] Rat.mul Rat.inv Rat.add Rat.sub Rat.ofScientific

/-! ## Money (App.tsx lines 57-62) -/

/-- Number.EPSILON of JavaScript: 2⁻⁵², the value added by `round2` before
rounding to compensate for binary representation error. -/
def jsEpsilon : ℚ := 1 / 2 ^ 52

/-- JavaScript `Math.round`: rounds to the nearest integer, ties toward
positive infinity, i.e. `Math.round x = ⌊x + 0.5⌋`. -/
def mathRound (x : ℚ) : ℤ := (x + 1 / 2).floor

/-- App.tsx line 60: `round2(n) = Math.round((n + Number.EPSILON) * 100) / 100`. -/
def round2 (n : ℚ) : ℚ := (mathRound ((n + jsEpsilon) * 100) : ℚ) / 100

theorem mathRound_eq_floor (x : ℚ) : mathRound x = ⌊x + 1 / 2⌋ := rfl

/-- Characterisation of `mathRound` by bounds on its argument. -/
theorem mathRound_eq (x : ℚ) (k : ℤ) (h1 : (k : ℚ) ≤ x + 1 / 2) (h2 : x + 1 / 2 < k + 1) :
    mathRound x = k := by
  rw [mathRound_eq_floor]
  exact Int.floor_eq_iff.mpr ⟨h1, h2⟩

/-- Amounts representable exactly in cents: integer multiples of 1/100. -/
def IsCents (x : ℚ) : Prop := ∃ k : ℤ, x = (k : ℚ) / 100

theorem isCents_zero : IsCents 0 := ⟨0, by norm_num⟩

theorem isCents_add {x y : ℚ} (hx : IsCents x) (hy : IsCents y) : IsCents (x + y) := by
  obtain ⟨k, rfl⟩ := hx
  obtain ⟨m, rfl⟩ := hy
  exact ⟨k + m, by push_cast; ring⟩

theorem isCents_sub {x y : ℚ} (hx : IsCents x) (hy : IsCents y) : IsCents (x - y) := by
  obtain ⟨k, rfl⟩ := hx
  obtain ⟨m, rfl⟩ := hy
  exact ⟨k - m, by push_cast; ring⟩

theorem isCents_natMul {x : ℚ} (hx : IsCents x) (q : ℕ) : IsCents (x * q) := by
  obtain ⟨k, rfl⟩ := hx
  exact ⟨k * q, by push_cast; ring⟩

/-- Rounding a value that is already a whole number of cents is the identity:
the epsilon shift `100 * 2⁻⁵² + 1/2` stays inside `[0, 1)`. -/
theorem round2_eq_self_of_isCents {x : ℚ} (hx : IsCents x) : round2 x = x := by
  obtain ⟨k, rfl⟩ := hx
  rw [round2, mathRound_eq ((((k : ℚ) / 100) + jsEpsilon) * 100) k]
  · rw [jsEpsilon]
    rw [div_add' _ _ _ (by norm_num : (100 : ℚ) ≠ 0)]
    nlinarith [sq_nonneg ((2 : ℚ) ^ 52)]
  · rw [jsEpsilon]
    nlinarith [sq_nonneg ((2 : ℚ) ^ 52)]

/-- Output of `round2` is always a whole number of cents. -/
theorem isCents_round2 (x : ℚ) : IsCents (round2 x) := ⟨mathRound ((x + jsEpsilon) * 100), rfl⟩

/-- Applying `round2` twice is the same as applying it once. -/
theorem round2_idem (x : ℚ) : round2 (round2 x) = round2 x :=
  round2_eq_self_of_isCents (isCents_round2 x)

/-! ## String helpers

Executable stand-ins for the JavaScript string methods used by the app.
`strUpper`/`strTrim` model `toUpperCase()`/`trim()` on the ASCII fragment the
receipts use; `strGe` models the lexicographic comparison Supabase performs
for `gte` on ISO-8601 timestamp strings. -/

/-- Uppercasing a string, character by character (models `toUpperCase()`). -/
def strUpper (s : String) : String := ⟨s.data.map Char.toUpper⟩

/-- Removal of leading and trailing whitespace (models `String.prototype.trim`). -/
def strTrim (s : String) : String :=
  ⟨((s.data.dropWhile Char.isWhitespace).reverse.dropWhile Char.isWhitespace).reverse⟩

/-- Lexicographic `a ≥ b` on strings, the order Supabase `gte` induces on
ISO-8601 timestamps. -/
def strGe (a b : String) : Bool := !decide (a.data < b.data)

/-! ## Data model (App.tsx lines 5-55) -/

/-- Staff role returned by the `check_staff_pin` RPC. -/
inductive Role where
  | staff
  | admin
deriving DecidableEq

/-- Rendering of a role for the `voided_by` and cashier labels (the source
carries the role as one of the literal strings "staff" / "admin"). -/
def Role.label : Role → String
  | .staff => "staff"
  | .admin => "admin"

/-- Payment method enum (`"cash" | "sumup"`). -/
inductive Payment where
  | cash
  | sumup
deriving DecidableEq

/-- Order status enum (`"completed" | "voided"`). -/
inductive OrderStatus where
  | completed
  | voided
deriving DecidableEq

/-- Print-job status enum (`"queued" | "printed"`). -/
inductive PrintStatus where
  | queued
  | printed
deriving DecidableEq

/-- Bar row (`type Bar`, App.tsx line 5). Sort order omitted: it only drives
the menu display. -/
structure Bar where
  id : String
  name : String
deriving DecidableEq

/-- Product row (`type Product`, App.tsx lines 6-13). -/
structure Product where
  id : String
  bar_id : String
  name : String
  price_gross : ℚ
  is_active : Bool
deriving DecidableEq

/-- Cart line (`type CartLine`, App.tsx line 15). -/
structure CartLine where
  product : Product
  qty : ℕ
deriving DecidableEq

/-- Authenticated staff identity (`type StaffAuth`, App.tsx lines 17-21). -/
structure StaffAuth where
  id : String
  name : String
  role : Role
deriving DecidableEq

/-- Receipt descriptor kept in local state after checkout
(`type ReceiptResponse`, App.tsx lines 23-32). -/
structure ReceiptResponse where
  order_id : String
  receipt_no : String
  short_no : ℤ
  public_token : String
  receipt_url : String
  gross : ℚ
  tax : ℚ
  net : ℚ
deriving DecidableEq

/-- Row returned by the `next_receipt` RPC.  Both fields are optional because
`doCheckout` guards against the RPC answering without them; the falsy check
`!row?.receipt_no || !row?.short_no` also treats `""` and `0` as missing. -/
structure SeqRow where
  receipt_no : Option String
  short_no : Option ℤ
deriving DecidableEq

/-- JavaScript truthiness of `row.receipt_no` and `row.short_no` as tested on
App.tsx line 320 (`undefined`, `""` and `0` are falsy). -/
def SeqRow.hasNumbers (r : SeqRow) : Bool :=
  (match r.receipt_no with | some s => s ≠ "" | none => false) &&
  (match r.short_no with | some n => n ≠ 0 | none => false)

/-- Persisted `orders` row (fields inserted on App.tsx lines 331-353 plus the
mutable `status`/`voided_at` pair). -/
structure OrderRow where
  id : String
  event_id : String
  bar_id : String
  device_id : String
  cashier_staff_id : String
  cashier_name_snapshot : String
  cashier_role_snapshot : Role
  receipt_no : String
  short_no : ℤ
  public_token : String
  payment_method : Payment
  status : OrderStatus
  gross_total : ℚ
  tax_rate : ℚ
  tax_total : ℚ
  net_total : ℚ
  created_at : String
  voided_at : Option String
deriving DecidableEq

/-- Persisted `order_items` row (App.tsx lines 359-366). -/
structure OrderItemRow where
  order_id : String
  product_id : String
  name_snapshot : String
  unit_price_gross : ℚ
  qty : ℕ
  line_total_gross : ℚ
deriving DecidableEq

/-- Persisted `voids` row (App.tsx lines 436-440 and 503). -/
structure VoidRow where
  order_id : String
  voided_by : String
  reason : String
deriving DecidableEq

/-- Persisted `print_jobs` row (App.tsx lines 387-392). -/
structure PrintJobRow where
  event_id : String
  order_id : String
  payload : String
  status : PrintStatus
deriving DecidableEq

/-- The Supabase tables the handlers write. -/
structure DB where
  orders : List OrderRow
  order_items : List OrderItemRow
  voids : List VoidRow
  print_jobs : List PrintJobRow
deriving DecidableEq

/-- Fixed event identifier (App.tsx line 52). -/
def EVENT_ID : String := "00000000-0000-0000-0000-000000000001"

/-! ## Currency formatting (App.tsx lines 57-59)

`euro` models `new Intl.NumberFormat("de-AT", {style: "currency", currency:
"EUR"}).format(n)`: a fixed locale-stable rendering with `€ ` prefix, `.` as
thousands separator, `,` as decimal separator, two fraction digits obtained by
rounding half away from zero (Intl's default `halfExpand` mode).  The
non-breaking space of the real locale is rendered as a plain space; only
determinism of the rendering matters for the claims. -/

/-- Grouping of a reversed digit list into blocks of three separated by dots. -/
def group3 : List Char → List Char
  | a :: b :: c :: d :: rest => a :: b :: c :: '.' :: group3 (d :: rest)
  | l => l

/-- Decimal rendering of a natural number with `.` thousands separators. -/
def natGrouped (n : ℕ) : String := ⟨(group3 (Nat.repr n).data.reverse).reverse⟩

/-- Rounding half away from zero to an integer (Intl's `halfExpand`). -/
def halfExpandRound (x : ℚ) : ℤ := if x < 0 then -mathRound (-x) else mathRound x

/-- Locale-stable currency formatter used by receipts, reports and the UI. -/
def euro (n : ℚ) : String :=
  let c : ℤ := halfExpandRound (n * 100)
  let a : ℕ := c.natAbs
  let frac : ℕ := a % 100
  (if c < 0 then "-" else "") ++ "€ " ++ natGrouped (a / 100) ++ "," ++
    (if frac < 10 then "0" else "") ++ Nat.repr frac

/-- Fixed-timezone, fixed-locale timestamp rendering: models
`new Date(iso).toLocaleString("de-AT")` as a deterministic function of the ISO
string (the reformatting itself is irrelevant to every claim, only its
determinism is). -/
def localeTimestamp (iso : String) : String := iso

/-! ## Receipt renderer (App.tsx lines 274-301) -/

/-- Item line handed to the receipt renderer. -/
structure ReceiptLine where
  qty : ℕ
  name : String
  lineTotal : ℚ
deriving DecidableEq

/-- Arguments of `buildReceiptText` (App.tsx lines 274-283). -/
structure ReceiptArgs where
  barName : String
  receiptNo : String
  createdAtISO : String
  payment : Payment
  lines : List ReceiptLine
  gross : ℚ
  tax : ℚ
  net : ℚ
deriving DecidableEq

/-- Receipt renderer (App.tsx lines 274-301).  Beyond its `args` record the
source closes over the component state `staff`: the `Kassier:` line shows the
cashier that is logged in *when the renderer runs*, not a snapshot from the
order; that state is therefore an explicit parameter here. -/
def buildReceiptText (staff : Option StaffAuth) (args : ReceiptArgs) : String :=
  let head :=
    "*** " ++ strUpper args.barName ++ " ***\n" ++
    "Bon-Nr: " ++ args.receiptNo ++ "\n" ++
    localeTimestamp args.createdAtISO ++ "\n" ++
    "Kassier: " ++ (match staff with
      | some st => st.name ++ " (" ++ st.role.label ++ ")"
      | none => "—") ++ "\n" ++
    "Zahlung: " ++ (match args.payment with
      | .sumup => "Karte (SumUp)"
      | .cash => "Bar") ++ "\n" ++
    "-----------------------------\n"
  let body := String.join (args.lines.map fun l =>
    Nat.repr l.qty ++ "x " ++ l.name ++ "  " ++ euro l.lineTotal ++ "\n")
  let foot :=
    "-----------------------------\n" ++
    "BRUTTO  " ++ euro args.gross ++ "\n" ++
    "USt 20% " ++ euro args.tax ++ "\n" ++
    "NETTO   " ++ euro args.net ++ "\n"
  head ++ body ++ foot

/-! ## Cart totals (App.tsx lines 179-181) -/

/-- Gross total of the cart: `round2(Σ price_gross · qty)` (App.tsx line 179). -/
def grossTotal (cartLines : List CartLine) : ℚ :=
  round2 (cartLines.foldl (fun s l => s + l.product.price_gross * l.qty) 0)

/-- Included 20% tax of the gross total: `round2(gross · 20/120)` (line 180). -/
def taxTotal (cartLines : List CartLine) : ℚ :=
  round2 (grossTotal cartLines * (20 / 120))

/-- Net total as the rounded residual `round2(gross - tax)` (line 181). -/
def netTotal (cartLines : List CartLine) : ℚ :=
  round2 (grossTotal cartLines - taxTotal cartLines)

/-! ## Component state

The slice of the `KassaPage` React state that the verified handlers read or
write, together with the database tables behind the Supabase client.  Input
boxes (`voidPin`, `voidReceiptNo`, `voidReason`, `reprintReceiptNo`) are passed
to the handlers as plain arguments instead. -/

structure UiState where
  staff : Option StaffAuth
  bars : List Bar
  selectedBar : Option Bar
  cart : List CartLine
  paymentMethod : Payment
  lastReceipt : Option ReceiptResponse
  qrDataUrl : Option String
  errorMsg : Option String
  voidMsg : Option String
  adminMsg : Option String
  adminUnlocked : Bool
  adminUser : Option StaffAuth
  db : DB
deriving DecidableEq

/-- Cart reset (`clearCart`, App.tsx lines 270-272). -/
def clearCart (s : UiState) : UiState := { s with cart := [] }

/-! ## Checkout (App.tsx lines 303-418) -/

deriving instance DecidableEq for Except

/-- Outcomes of the external calls `doCheckout` performs, in program order:
the `next_receipt` RPC (which may error, return no row, or return a row),
the `orders` insert (returning the fresh row id), the `order_items` insert,
the `print_jobs` insert, and QR rendering; plus the values the environment
supplies (random token, device id, clock). -/
structure CheckoutEnv where
  seqResult : Except String (Option SeqRow)
  orderInsert : Except String String
  itemsInsert : Except String Unit
  printInsert : Except String Unit
  qrRender : Except String String
  publicToken : String
  deviceId : String
  nowISO : String
deriving DecidableEq

/-- Checkout handler (`doCheckout`, App.tsx lines 303-418).  Each `throw` in
the source lands in the surrounding `catch`, which stores the message via
`setError`; the early `return void setError(...)` guards behave the same way
on the state. -/
def doCheckout (printRequested : Bool) (env : CheckoutEnv) (s : UiState) : UiState :=
  let s0 := { s with errorMsg := none }
  match s0.staff with
  | none => { s0 with errorMsg := some "Bitte zuerst einloggen." }
  | some staff =>
    match s0.selectedBar with
    | none => { s0 with errorMsg := some "Bitte zuerst die Bar auswählen." }
    | some bar =>
      if s0.cart.isEmpty then { s0 with errorMsg := some "Warenkorb ist leer." }
      else
        match env.seqResult with
        | .error m => { s0 with errorMsg := some m }
        | .ok none =>
          { s0 with
              errorMsg :=
                some "next_receipt() hat keine Bon-Nummer geliefert. Prüfe event_counters / RPC." }
        | .ok (some row) =>
          if !row.hasNumbers then
            { s0 with
                errorMsg :=
                  some "next_receipt() hat keine Bon-Nummer geliefert. Prüfe event_counters / RPC." }
          else
            let receiptNo := row.receipt_no.getD ""
            let shortNo := row.short_no.getD 0
            match env.orderInsert with
            | .error m => { s0 with errorMsg := some m }
            | .ok orderId =>
              let orderRow : OrderRow :=
                { id := orderId
                  event_id := EVENT_ID
                  bar_id := bar.id
                  device_id := env.deviceId
                  cashier_staff_id := staff.id
                  cashier_name_snapshot := staff.name
                  cashier_role_snapshot := staff.role
                  receipt_no := receiptNo
                  short_no := shortNo
                  public_token := env.publicToken
                  payment_method := s0.paymentMethod
                  status := .completed
                  gross_total := grossTotal s0.cart
                  tax_rate := 1 / 5
                  tax_total := taxTotal s0.cart
                  net_total := netTotal s0.cart
                  created_at := env.nowISO
                  voided_at := none }
              let s1 := { s0 with db := { s0.db with orders := s0.db.orders ++ [orderRow] } }
              let itemsRows : List OrderItemRow := s0.cart.map fun l =>
                { order_id := orderId
                  product_id := l.product.id
                  name_snapshot := l.product.name
                  unit_price_gross := l.product.price_gross
                  qty := l.qty
                  line_total_gross := round2 (l.product.price_gross * l.qty) }
              match env.itemsInsert with
              | .error m => { s1 with errorMsg := some m }
              | .ok _ =>
                let s2 :=
                  { s1 with db := { s1.db with order_items := s1.db.order_items ++ itemsRows } }
                let payload := buildReceiptText s0.staff
                  { barName := bar.name
                    receiptNo := receiptNo
                    createdAtISO := env.nowISO
                    payment := s0.paymentMethod
                    lines := s0.cart.map fun l =>
                      { qty := l.qty
                        name := l.product.name
                        lineTotal := round2 (l.product.price_gross * l.qty) }
                    gross := grossTotal s0.cart
                    tax := taxTotal s0.cart
                    net := netTotal s0.cart }
                match (if printRequested then env.printInsert else .ok ()) with
                | .error m => { s2 with errorMsg := some m }
                | .ok _ =>
                  let s3 :=
                    if printRequested then
                      { s2 with db := { s2.db with print_jobs := s2.db.print_jobs ++
                        [{ event_id := EVENT_ID
                           order_id := orderId
                           payload := payload
                           status := .queued }] } }
                    else s2
                  match env.qrRender with
                  | .error m => { s3 with errorMsg := some m }
                  | .ok qr =>
                    clearCart
                      { s3 with
                        lastReceipt := some
                          { order_id := orderId
                            receipt_no := receiptNo
                            short_no := shortNo
                            public_token := env.publicToken
                            receipt_url := "/r/" ++ env.publicToken
                            gross := grossTotal s0.cart
                            tax := taxTotal s0.cart
                            net := netTotal s0.cart }
                        qrDataUrl := some qr }

/-! ## Void paths (App.tsx lines 421-450 and 482-512) -/

/-- Supabase `.single()`: succeeds exactly when the query returned one row. -/
def singleRow {α : Type} : List α → Except String α
  | [x] => .ok x
  | _ => .error "JSON object requested, multiple (or no) rows returned"

/-- Status update performed by both void paths:
`update({status: "voided", voided_at}).eq("id", orderId)`. -/
def setVoided (orders : List OrderRow) (orderId nowIso : String) : List OrderRow :=
  orders.map fun o =>
    if o.id = orderId then { o with status := .voided, voided_at := some nowIso } else o

/-- Outcomes of the external calls of a void handler: the PIN check (only used
by the self-service path), the `orders` update, the `voids` insert, the clock. -/
structure VoidEnv where
  pinResult : Option StaffAuth
  updateResult : Except String Unit
  insertResult : Except String Unit
  nowISO : String
deriving DecidableEq

/-- Self-service void of the last receipt (`voidLastReceiptNoReason`, App.tsx
lines 421-450): any staff or admin PIN, empty reason, targets
`lastReceipt.order_id`.  Notably there is no already-voided check before the
update and the insert. -/
def voidLastReceiptNoReason (env : VoidEnv) (s : UiState) : UiState :=
  let s0 := { s with voidMsg := none }
  match s0.lastReceipt with
  | none => { s0 with voidMsg := some "Kein letzter Bon vorhanden." }
  | some lr =>
    match env.pinResult with
    | none => { s0 with voidMsg := some "Falscher PIN." }
    | some auth =>
      match env.updateResult with
      | .error m => { s0 with voidMsg := some ("Fehler: " ++ m) }
      | .ok _ =>
        let s1 := { s0 with
          db := { s0.db with orders := setVoided s0.db.orders lr.order_id env.nowISO } }
        match env.insertResult with
        | .error m => { s1 with voidMsg := some ("Fehler: " ++ m) }
        | .ok _ =>
          { s1 with
            db := { s1.db with voids := s1.db.voids ++
              [{ order_id := lr.order_id
                 voided_by := auth.role.label ++ ":" ++ auth.name
                 reason := "" }] }
            voidMsg := some ("Storno ok: " ++ lr.receipt_no) }

/-- Administrative void by receipt number (`adminVoidByReceipt`, App.tsx lines
482-512): requires the unlocked admin panel, a receipt number and a non-empty
reason, rejects an already-voided order before writing anything.  The lookup
`select("id,status").eq("event_id", ...).eq("receipt_no", r).single()` is
evaluated against the embedded `orders` table; the source's `if (!o)` guard is
dead code because `.single()` already errors on zero rows. -/
def adminVoidByReceipt (env : VoidEnv) (voidReceiptNo voidReason : String)
    (s : UiState) : UiState :=
  let s0 := { s with adminMsg := none }
  if !s0.adminUnlocked then { s0 with adminMsg := some "Bitte zuerst Admin entsperren." }
  else
    let r := strTrim voidReceiptNo
    let reason := strTrim voidReason
    if r = "" then { s0 with adminMsg := some "Bitte Bon-Nr eingeben." }
    else if reason = "" then { s0 with adminMsg := some "Bitte Storno-Grund eingeben." }
    else
      match singleRow (s0.db.orders.filter fun o =>
          o.event_id == EVENT_ID && o.receipt_no == r) with
      | .error m => { s0 with adminMsg := some ("Fehler: " ++ m) }
      | .ok o =>
        if o.status = .voided then
          { s0 with adminMsg := some "Dieser Bon ist bereits storniert." }
        else
          match env.updateResult with
          | .error m => { s0 with adminMsg := some ("Fehler: " ++ m) }
          | .ok _ =>
            let s1 := { s0 with
              db := { s0.db with orders := setVoided s0.db.orders o.id env.nowISO } }
            match env.insertResult with
            | .error m => { s1 with adminMsg := some ("Fehler: " ++ m) }
            | .ok _ =>
              let who := match s0.adminUser with
                | some au => au.role.label ++ ":" ++ au.name
                | none => "admin"
              { s1 with
                db := { s1.db with voids := s1.db.voids ++
                  [{ order_id := o.id, voided_by := who, reason := reason }] }
                adminMsg := some ("Storno ok: " ++ r) }

/-! ## Reprint (App.tsx lines 514-556) -/

/-- Outcome of the `print_jobs` insert, the only external write of the reprint
handler. -/
structure ReprintEnv where
  printInsert : Except String Unit
deriving DecidableEq

/-- Administrative reprint (`adminReprintByReceipt`, App.tsx lines 514-556):
looks the order and its items up by receipt number and re-renders the payload
through `buildReceiptText` — with the *currently logged-in* `staff` state, as
at finalize time. -/
def adminReprintByReceipt (env : ReprintEnv) (reprintReceiptNo : String)
    (s : UiState) : UiState :=
  let s0 := { s with adminMsg := none }
  if !s0.adminUnlocked then { s0 with adminMsg := some "Bitte zuerst Admin entsperren." }
  else
    let r := strTrim reprintReceiptNo
    if r = "" then { s0 with adminMsg := some "Bitte Bon-Nr eingeben." }
    else
      match singleRow (s0.db.orders.filter fun o =>
          o.event_id == EVENT_ID && o.receipt_no == r) with
      | .error m => { s0 with adminMsg := some ("Fehler: " ++ m) }
      | .ok o =>
        let items := s0.db.order_items.filter fun i => i.order_id == o.id
        let barName := match s0.bars.find? fun b => b.id == o.bar_id with
          | some b => b.name
          | none => "Bar"
        let payload := buildReceiptText s0.staff
          { barName := barName
            receiptNo := o.receipt_no
            createdAtISO := o.created_at
            payment := o.payment_method
            lines := items.map fun x =>
              { qty := x.qty, name := x.name_snapshot, lineTotal := x.line_total_gross }
            gross := o.gross_total
            tax := o.tax_total
            net := o.net_total }
        match env.printInsert with
        | .error m => { s0 with adminMsg := some ("Fehler: " ++ m) }
        | .ok _ =>
          { s0 with
            db := { s0.db with print_jobs := s0.db.print_jobs ++
              [{ event_id := EVENT_ID, order_id := o.id, payload := payload,
                 status := .queued }] }
            adminMsg := some ("Reprint queued: " ++ r) }

/-! ## Report (App.tsx lines 558-617) -/

/-- Report range selector (`"all" | "today"`). -/
inductive RRange where
  | all
  | today
deriving DecidableEq

/-- Row predicate of the report query:
`.eq("event_id", EVENT_ID).eq("status", "completed")` plus, for the `today`
range, `.gte("created_at", startOfToday)` — voided orders are excluded at the
query boundary (App.tsx lines 568-576). -/
def reportPred (range : RRange) (startIso : String) (o : OrderRow) : Bool :=
  o.event_id == EVENT_ID && o.status == OrderStatus.completed &&
    (match range with
      | .all => true
      | .today => strGe o.created_at startIso)

/-- Orders passing the report query. -/
def reportOrders (range : RRange) (startIso : String) (db : DB) : List OrderRow :=
  db.orders.filter (reportPred range startIso)

/-- Grand totals of the report (App.tsx lines 579-584). -/
structure ReportTotals where
  brutto : ℚ
  ust : ℚ
  netto : ℚ
  bons : ℕ
deriving DecidableEq

/-- Per-bar aggregate of the report (App.tsx lines 587-595). -/
structure BarAgg where
  bar : String
  brutto : ℚ
  bons : ℕ
deriving DecidableEq

/-- Per-product aggregate of the report (App.tsx lines 597-610). -/
structure ProdAgg where
  produkt : String
  menge : ℕ
  brutto : ℚ
deriving DecidableEq

/-- Bar-name resolution with `"Unbekannt"` fallback (App.tsx line 589). -/
def barNameOf (bars : List Bar) (barId : String) : String :=
  match bars.find? fun b => b.id == barId with
  | some b => b.name
  | none => "Unbekannt"

/-- One step of the per-bar `Map` accumulation (App.tsx lines 588-594);
JavaScript `Map` iterates in insertion order, so it is an association list. -/
def bumpBar : List BarAgg → String → ℚ → List BarAgg
  | [], name, g => [{ bar := name, brutto := round2 (0 + g), bons := 0 + 1 }]
  | a :: rest, name, g =>
    if a.bar = name then
      { a with brutto := round2 (a.brutto + g), bons := a.bons + 1 } :: rest
    else a :: bumpBar rest name g

/-- One step of the per-product `Map` accumulation (App.tsx lines 602-608),
keyed by the name snapshot. -/
def bumpProd : List ProdAgg → String → ℕ → ℚ → List ProdAgg
  | [], name, q, g => [{ produkt := name, menge := 0 + q, brutto := round2 (0 + g) }]
  | a :: rest, name, q, g =>
    if a.produkt = name then
      { a with menge := a.menge + q, brutto := round2 (a.brutto + g) } :: rest
    else a :: bumpProd rest name q g

/-- Descending order by gross used by both breakdowns
(`sort((a, b) => b.brutto - a.brutto)`). -/
def bruttoDescBar (a b : BarAgg) : Prop := b.brutto ≤ a.brutto

instance : DecidableRel bruttoDescBar := fun a b =>
  inferInstanceAs (Decidable (b.brutto ≤ a.brutto))

instance : IsTotal BarAgg bruttoDescBar := ⟨fun a b => le_total b.brutto a.brutto⟩

instance : IsTrans BarAgg bruttoDescBar := ⟨fun _ _ _ h1 h2 => le_trans h2 h1⟩

/-- Descending order by gross on the product aggregates. -/
def bruttoDescProd (a b : ProdAgg) : Prop := b.brutto ≤ a.brutto

instance : DecidableRel bruttoDescProd := fun a b =>
  inferInstanceAs (Decidable (b.brutto ≤ a.brutto))

instance : IsTotal ProdAgg bruttoDescProd := ⟨fun a b => le_total b.brutto a.brutto⟩

instance : IsTrans ProdAgg bruttoDescProd := ⟨fun _ _ _ h1 h2 => le_trans h2 h1⟩

/-- Result of a report run. -/
structure Report where
  totals : ReportTotals
  byBar : List BarAgg
  byProduct : List ProdAgg
deriving DecidableEq

/-- Report handler (`loadReport`, App.tsx lines 558-617).  The JavaScript
array sort with comparator `(a, b) => b.brutto - a.brutto` is a stable sort,
modelled by insertion sort on the descending-gross relation. -/
def reportOf (range : RRange) (startIso : String) (bars : List Bar) (db : DB) : Report :=
  let orders := reportOrders range startIso db
  let totals : ReportTotals :=
    { brutto := round2 (orders.foldl (fun t o => t + o.gross_total) 0)
      ust := round2 (orders.foldl (fun t o => t + o.tax_total) 0)
      netto := round2 (orders.foldl (fun t o => t + o.net_total) 0)
      bons := orders.length }
  let byBar := List.insertionSort bruttoDescBar
    (orders.foldl (fun acc o => bumpBar acc (barNameOf bars o.bar_id) o.gross_total) [])
  let ids := orders.map (·.id)
  let byProduct :=
    if ids.isEmpty then []
    else
      let items := db.order_items.filter fun i => ids.contains i.order_id
      List.insertionSort bruttoDescProd
        (items.foldl (fun acc i => bumpProd acc i.name_snapshot i.qty i.line_total_gross) [])
  { totals := totals, byBar := byBar, byProduct := byProduct }

/-- Report handler guard (App.tsx line 566): admin must be unlocked, then the
pure aggregation `reportOf` runs on the current tables. -/
def loadReport (range : RRange) (startIso : String) (s : UiState) : Except String Report :=
  if !s.adminUnlocked then .error "Bitte Admin entsperren."
  else .ok (reportOf range startIso s.bars s.db)

/-! ## Sequencer -/

/-- Modelled from the spec: the `next_receipt` RPC (spec §4.3) lives in the
database, not in this repository's sources — only its caller `doCheckout` is
in `src/`.  Per the spec it is "a single atomic increment-and-read operation
against the shared counter resource", one counter per event id.  `seqNext`
is that atomic operation; because each call is a single atomic step, any
concurrent execution of K calls is equivalent to some sequential order of
the K steps, which `runNexts` iterates. -/
def seqNext (eventId : String) (counters : String → ℕ) : (String → ℕ) × ℕ :=
  let n := counters eventId + 1
  (Function.update counters eventId n, n)

/-- Modelled from the spec: K consecutive atomic `next` calls for one event
(the sequential schedule every concurrent execution of atomic increments is
equivalent to), returning the final counters and the issued short numbers in
order. -/
def runNexts (eventId : String) (counters : String → ℕ) : ℕ → (String → ℕ) × List ℕ
  | 0 => (counters, [])
  | Nat.succ k =>
    let fstStep := seqNext eventId counters
    let rest := runNexts eventId fstStep.1 k
    (rest.1, fstStep.2 :: rest.2)

/-! ## Helper lemmas -/

theorem foldl_add_eq_sum {α : Type} (f : α → ℚ) (l : List α) (a : ℚ) :
    l.foldl (fun s x => s + f x) a = a + (l.map f).sum := by
  induction l generalizing a with
  | nil => simp
  | cons x xs ih => simp [ih]; ring

/-- Gross total rewritten as a sum over the mapped cart. -/
theorem grossTotal_eq_round2_sum (c : List CartLine) :
    grossTotal c = round2 ((c.map fun l => l.product.price_gross * (l.qty : ℚ)).sum) := by
  rw [grossTotal, foldl_add_eq_sum]
  simp

theorem isCents_grossTotal (c : List CartLine) : IsCents (grossTotal c) := isCents_round2 _

theorem isCents_taxTotal (c : List CartLine) : IsCents (taxTotal c) := isCents_round2 _

/-- Net is the exact residual: since gross and tax are whole cents, the final
`round2` in `netTotal` is the identity. -/
theorem netTotal_eq_sub (c : List CartLine) : netTotal c = grossTotal c - taxTotal c := by
  rw [netTotal, round2_eq_self_of_isCents (isCents_sub (isCents_grossTotal c) (isCents_taxTotal c))]

/-- Example products of the spec scenario (§8): €2.50 and €3.00. -/
def productA : Product :=
  { id := "pA", bar_id := "b1", name := "ProduktA", price_gross := 5 / 2, is_active := true }

def productB : Product :=
  { id := "pB", bar_id := "b1", name := "ProduktB", price_gross := 3, is_active := true }

/-- Example cart of the spec scenario: ProductA × 2, ProductB × 1. -/
def exampleCart : List CartLine := [⟨productA, 2⟩, ⟨productB, 1⟩]

/-! ## C5 — cart totals -/

/-- C5: for every cart, `grossTotal = round2(Σ pᵢ·qᵢ)`,
`tax = round2(gross·20/120)`, `net = round2(gross − tax)`, and
`tax + net = gross` exactly; for the cart {€2.50 × 2, €3.00 × 1} the totals
are gross €8.00, tax €1.33, net €6.67. -/
theorem c5_cart_totals :
    (∀ c : List CartLine,
      grossTotal c = round2 ((c.map fun l => l.product.price_gross * (l.qty : ℚ)).sum) ∧
      taxTotal c = round2 (grossTotal c * (20 / 120)) ∧
      netTotal c = round2 (grossTotal c - taxTotal c) ∧
      taxTotal c + netTotal c = grossTotal c) ∧
    grossTotal exampleCart = 8 ∧ taxTotal exampleCart = 133 / 100 ∧
      netTotal exampleCart = 667 / 100 := by
  refine ⟨fun c => ⟨grossTotal_eq_round2_sum c, rfl, rfl, ?_⟩, by decide, by decide, by decide⟩
  rw [netTotal_eq_sub]
  ring

/-! ## C8 — round2 semantics -/

/-- C8 counterexample: `round2` does not round ties away from zero on negative
inputs.  At x = −0.005 (a tie), round-half-away-from-zero would give −0.01,
but the code (JavaScript `Math.round`, which sends ties toward +∞) gives 0. -/
theorem c8_negative_tie_counterexample :
    round2 (-(1 / 200)) = 0 ∧ round2 (-(1 / 200)) ≠ -(1 / 100) := by
  constructor
  · decide
  · decide

/-- C8 (amended): `round2` is idempotent, and rounds ties toward positive
infinity — `round2((2k+1)/200) = (k+1)/100` for every integer k — which
coincides with round-half-away-from-zero exactly for non-negative inputs. -/
theorem c8_round2_idempotent_half_up :
    (∀ x : ℚ, round2 (round2 x) = round2 x) ∧
    (∀ k : ℤ, round2 ((2 * k + 1 : ℤ) / 200) = ((k + 1 : ℤ) : ℚ) / 100) := by
  refine ⟨round2_idem, fun k => ?_⟩
  have heps : (0 : ℚ) < jsEpsilon := by rw [jsEpsilon]; positivity
  rw [round2, mathRound_eq _ (k + 1)]
  · push_cast
    linarith [heps]
  · have heps2 : jsEpsilon < 1 / 200 := by rw [jsEpsilon]; norm_num
    push_cast
    linarith [heps2]

/-! ## C1 — sequencer failure aborts checkout before the order insert -/

/-- Failure of the `next_receipt` step as `doCheckout` tests it: the RPC
errors, returns no row, or returns a row whose receipt/short number is falsy. -/
def seqFailed (env : CheckoutEnv) : Prop :=
  (∃ m, env.seqResult = .error m) ∨ env.seqResult = .ok none ∨
    (∃ row, env.seqResult = .ok (some row) ∧ row.hasNumbers = false)

/-- C1: whenever the Sequencer call fails or yields no receipt/short number,
`doCheckout` leaves the entire state unchanged except for storing an error
message — in particular no `orders` row (and nothing else) is inserted. -/
theorem c1_seq_failure_no_order (printRequested : Bool) (env : CheckoutEnv) (s : UiState)
    (h : seqFailed env) :
    ∃ m, doCheckout printRequested env s = { s with errorMsg := some m } := by
  obtain ⟨staff, bars, selBar, cart, pm, lr, qr, em, vm, am, aunl, auser, db⟩ := s
  rcases h with ⟨m, hm⟩ | hm | ⟨row, hm, hrow⟩
  · cases staff <;> cases selBar <;> cases cart <;>
      simp only [doCheckout, hm, List.isEmpty_nil, List.isEmpty_cons, if_true, if_false,
        Bool.not_false, Bool.not_true, ite_true, ite_false] <;>
      exact ⟨_, rfl⟩
  · cases staff <;> cases selBar <;> cases cart <;>
      simp only [doCheckout, hm, List.isEmpty_nil, List.isEmpty_cons, if_true, if_false,
        Bool.not_false, Bool.not_true, ite_true, ite_false] <;>
      exact ⟨_, rfl⟩
  · cases staff <;> cases selBar <;> cases cart <;>
      simp only [doCheckout, hm, hrow, List.isEmpty_nil, List.isEmpty_cons, if_true, if_false,
        Bool.not_false, Bool.not_true, ite_true, ite_false] <;>
      exact ⟨_, rfl⟩

/-- Witness for C1 at a concrete input: a failing sequencer RPC on a
ready-to-checkout state produces exactly the error-annotated state. -/
theorem c1_seq_failure_no_order_witness :
    seqFailed
      { seqResult := .error "TypeError: Failed to fetch"
        orderInsert := .ok "o1"
        itemsInsert := .ok ()
        printInsert := .ok ()
        qrRender := .ok "data:image/png"
        publicToken := "tok"
        deviceId := "dev"
        nowISO := "2025-08-01T18:00:00.000Z" } ∧
    ∃ m,
      doCheckout false
        { seqResult := .error "TypeError: Failed to fetch"
          orderInsert := .ok "o1"
          itemsInsert := .ok ()
          printInsert := .ok ()
          qrRender := .ok "data:image/png"
          publicToken := "tok"
          deviceId := "dev"
          nowISO := "2025-08-01T18:00:00.000Z" }
        { staff := some { id := "s1", name := "Alice", role := .staff }
          bars := [{ id := "b1", name := "Weinbar" }]
          selectedBar := some { id := "b1", name := "Weinbar" }
          cart := [⟨productA, 2⟩]
          paymentMethod := .cash
          lastReceipt := none
          qrDataUrl := none
          errorMsg := none
          voidMsg := none
          adminMsg := none
          adminUnlocked := false
          adminUser := none
          db := ⟨[], [], [], []⟩ } =
      { staff := some { id := "s1", name := "Alice", role := .staff }
        bars := [{ id := "b1", name := "Weinbar" }]
        selectedBar := some { id := "b1", name := "Weinbar" }
        cart := [⟨productA, 2⟩]
        paymentMethod := .cash
        lastReceipt := none
        qrDataUrl := none
        errorMsg := some m
        voidMsg := none
        adminMsg := none
        adminUnlocked := false
        adminUser := none
        db := ⟨[], [], [], []⟩ } :=
  ⟨Or.inl ⟨"TypeError: Failed to fetch", rfl⟩,
    c1_seq_failure_no_order false _ _ (Or.inl ⟨"TypeError: Failed to fetch", rfl⟩)⟩

/-! ## Checkout evaluation lemmas -/

/-- Item rows inserted by a successful checkout (App.tsx lines 359-366). -/
def checkoutItemRows (cart : List CartLine) (orderId : String) : List OrderItemRow :=
  cart.map fun l =>
    { order_id := orderId
      product_id := l.product.id
      name_snapshot := l.product.name
      unit_price_gross := l.product.price_gross
      qty := l.qty
      line_total_gross := round2 (l.product.price_gross * l.qty) }

/-- Receipt-renderer arguments built by a successful checkout
(App.tsx lines 372-385). -/
def checkoutArgs (bar : Bar) (receiptNo nowIso : String) (pm : Payment)
    (cart : List CartLine) : ReceiptArgs :=
  { barName := bar.name
    receiptNo := receiptNo
    createdAtISO := nowIso
    payment := pm
    lines := cart.map fun l =>
      { qty := l.qty
        name := l.product.name
        lineTotal := round2 (l.product.price_gross * l.qty) }
    gross := grossTotal cart
    tax := taxTotal cart
    net := netTotal cart }

/-- Every exit of `doCheckout` either reports an error and leaves the cart,
bar selection and payment method untouched, or reports no error and clears
the cart. -/
theorem doCheckout_shape (p : Bool) (env : CheckoutEnv) (s : UiState) :
    ((doCheckout p env s).errorMsg.isSome = true ∧ (doCheckout p env s).cart = s.cart ∧
      (doCheckout p env s).selectedBar = s.selectedBar ∧
      (doCheckout p env s).paymentMethod = s.paymentMethod) ∨
    ((doCheckout p env s).errorMsg = none ∧ (doCheckout p env s).cart = []) := by
  obtain ⟨staff, bars, selBar, cart, pm, lr, qr, em, vm, am, aunl, auser, db⟩ := s
  simp only [doCheckout]
  repeat' split
  all_goals simp [clearCart]

/-- Full evaluation of a checkout in which every external call succeeds. -/
theorem doCheckout_success (p : Bool) (env : CheckoutEnv) (s : UiState)
    (staff : StaffAuth) (bar : Bar) (row : SeqRow) (orderId q : String)
    (hstaff : s.staff = some staff) (hbar : s.selectedBar = some bar)
    (hcart : s.cart.isEmpty = false)
    (hseq : env.seqResult = .ok (some row)) (hrow : row.hasNumbers = true)
    (hord : env.orderInsert = .ok orderId) (hitems : env.itemsInsert = .ok ())
    (hprint : p = true → env.printInsert = .ok ()) (hqr : env.qrRender = .ok q) :
    doCheckout p env s =
      { s with
        cart := []
        errorMsg := none
        lastReceipt := some
          { order_id := orderId
            receipt_no := row.receipt_no.getD ""
            short_no := row.short_no.getD 0
            public_token := env.publicToken
            receipt_url := "/r/" ++ env.publicToken
            gross := grossTotal s.cart
            tax := taxTotal s.cart
            net := netTotal s.cart }
        qrDataUrl := some q
        db :=
          { orders := s.db.orders ++
              [{ id := orderId
                 event_id := EVENT_ID
                 bar_id := bar.id
                 device_id := env.deviceId
                 cashier_staff_id := staff.id
                 cashier_name_snapshot := staff.name
                 cashier_role_snapshot := staff.role
                 receipt_no := row.receipt_no.getD ""
                 short_no := row.short_no.getD 0
                 public_token := env.publicToken
                 payment_method := s.paymentMethod
                 status := .completed
                 gross_total := grossTotal s.cart
                 tax_rate := 1 / 5
                 tax_total := taxTotal s.cart
                 net_total := netTotal s.cart
                 created_at := env.nowISO
                 voided_at := none }]
            order_items := s.db.order_items ++ checkoutItemRows s.cart orderId
            voids := s.db.voids
            print_jobs := s.db.print_jobs ++
              (if p then
                [{ event_id := EVENT_ID
                   order_id := orderId
                   payload := buildReceiptText (some staff)
                     (checkoutArgs bar (row.receipt_no.getD "") env.nowISO s.paymentMethod s.cart)
                   status := PrintStatus.queued }]
              else []) } } := by
  obtain ⟨st, bars, selBar, cart, pm, lr, qr0, em, vm, am, aunl, auser, dbo⟩ := s
  obtain ⟨sq, oi, ii, pi, qrr, tok, dev, now⟩ := env
  simp only at hstaff hbar hcart hseq hord hitems hprint hqr ⊢
  subst hstaff hbar hseq hord hitems hqr
  cases p
  · simp [doCheckout, hcart, hrow, clearCart, checkoutItemRows, checkoutArgs]
  · have hpi := hprint rfl
    subst hpi
    simp [doCheckout, hcart, hrow, clearCart, checkoutItemRows, checkoutArgs]

/-- Inversion: a checkout that ends without an error message went through
every step successfully. -/
theorem doCheckout_ok_inversion (p : Bool) (env : CheckoutEnv) (s : UiState)
    (h : (doCheckout p env s).errorMsg = none) :
    (∃ row, env.seqResult = .ok (some row) ∧ row.hasNumbers = true) ∧
    (∃ oid, env.orderInsert = .ok oid) ∧ env.itemsInsert = .ok () ∧
    (p = true → env.printInsert = .ok ()) ∧ (∃ q, env.qrRender = .ok q) := by
  obtain ⟨st, bars, selBar, cart, pm, lr, qr0, em, vm, am, aunl, auser, dbo⟩ := s
  cases p <;>
    · simp only [doCheckout] at h
      repeat' split at h
      all_goals simp_all [clearCart]

/-! ## C10 — failed checkout leaves the local sale state untouched -/

/-- Failure of one of the enumerated checkout steps: sequencer error or
missing number, order insert error, item insert error, print-job insert error
(when printing was requested), or QR rendering error. -/
def checkoutStepFailed (p : Bool) (env : CheckoutEnv) : Prop :=
  seqFailed env ∨ (∃ m, env.orderInsert = .error m) ∨ (∃ m, env.itemsInsert = .error m) ∨
    (p = true ∧ ∃ m, env.printInsert = .error m) ∨ (∃ m, env.qrRender = .error m)

/-- C10: when any checkout step fails, the cart, the selected bar and the
payment method are exactly as before and an error is surfaced; the cart is
cleared (and no error reported) only when every step succeeds. -/
theorem c10_failure_frame (p : Bool) (env : CheckoutEnv) (s : UiState) :
    (checkoutStepFailed p env →
      (doCheckout p env s).cart = s.cart ∧
      (doCheckout p env s).selectedBar = s.selectedBar ∧
      (doCheckout p env s).paymentMethod = s.paymentMethod ∧
      (doCheckout p env s).errorMsg.isSome = true) ∧
    (∀ staff bar row orderId q,
      s.staff = some staff → s.selectedBar = some bar → s.cart.isEmpty = false →
      env.seqResult = .ok (some row) → row.hasNumbers = true →
      env.orderInsert = .ok orderId → env.itemsInsert = .ok () →
      (p = true → env.printInsert = .ok ()) → env.qrRender = .ok q →
      (doCheckout p env s).cart = [] ∧ (doCheckout p env s).errorMsg = none) := by
  constructor
  · intro h
    rcases doCheckout_shape p env s with ⟨h1, h2, h3, h4⟩ | ⟨hnone, hempty⟩
    · exact ⟨h2, h3, h4, h1⟩
    · exfalso
      obtain ⟨⟨row, hseq, hrow⟩, ⟨oid, hord⟩, hitems, hprint, ⟨q, hqr⟩⟩ :=
        doCheckout_ok_inversion p env s hnone
      rcases h with hs | ⟨m, hm⟩ | ⟨m, hm⟩ | ⟨hp, m, hm⟩ | ⟨m, hm⟩
      · rcases hs with ⟨m, hm⟩ | hm | ⟨row', hm, hrow'⟩ <;> rw [hm] at hseq <;> simp_all
      · rw [hm] at hord; simp_all
      · rw [hm] at hitems; simp_all
      · rw [hm] at hprint; simp_all
      · rw [hm] at hqr; simp_all
  · intro staff bar row orderId q hstaff hbar hcart hseq hrow hord hitems hprint hqr
    rw [doCheckout_success p env s staff bar row orderId q hstaff hbar hcart hseq hrow hord
      hitems hprint hqr]
    exact ⟨rfl, rfl⟩

/-- Witness for C10 at concrete inputs: an item-insert failure keeps the cart,
bar and payment method and surfaces an error; the all-success run clears the
cart. -/
theorem c10_failure_frame_witness :
    (let envFail : CheckoutEnv :=
      { seqResult := .ok (some { receipt_no := some "W1-41", short_no := some 41 })
        orderInsert := .ok "o1"
        itemsInsert := .error "insert into order_items failed"
        printInsert := .ok ()
        qrRender := .ok "qr"
        publicToken := "tok"
        deviceId := "dev"
        nowISO := "2025-08-01T18:00:00.000Z" }
    let s : UiState :=
      { staff := some { id := "s1", name := "Alice", role := .staff }
        bars := [{ id := "b1", name := "Weinbar" }]
        selectedBar := some { id := "b1", name := "Weinbar" }
        cart := [⟨productA, 2⟩]
        paymentMethod := .cash
        lastReceipt := none
        qrDataUrl := none
        errorMsg := none
        voidMsg := none
        adminMsg := none
        adminUnlocked := false
        adminUser := none
        db := ⟨[], [], [], []⟩ }
    (doCheckout false envFail s).cart = s.cart ∧
      (doCheckout false envFail s).selectedBar = s.selectedBar ∧
      (doCheckout false envFail s).paymentMethod = s.paymentMethod ∧
      (doCheckout false envFail s).errorMsg.isSome = true) ∧
    (let envOk : CheckoutEnv :=
      { seqResult := .ok (some { receipt_no := some "W1-41", short_no := some 41 })
        orderInsert := .ok "o1"
        itemsInsert := .ok ()
        printInsert := .ok ()
        qrRender := .ok "qr"
        publicToken := "tok"
        deviceId := "dev"
        nowISO := "2025-08-01T18:00:00.000Z" }
    let s : UiState :=
      { staff := some { id := "s1", name := "Alice", role := .staff }
        bars := [{ id := "b1", name := "Weinbar" }]
        selectedBar := some { id := "b1", name := "Weinbar" }
        cart := [⟨productA, 2⟩]
        paymentMethod := .cash
        lastReceipt := none
        qrDataUrl := none
        errorMsg := none
        voidMsg := none
        adminMsg := none
        adminUnlocked := false
        adminUser := none
        db := ⟨[], [], [], []⟩ }
    (doCheckout false envOk s).cart = [] ∧ (doCheckout false envOk s).errorMsg = none) := by
  constructor
  · exact (c10_failure_frame false _ _).1
      (Or.inr (Or.inr (Or.inl ⟨"insert into order_items failed", rfl⟩)))
  · exact (c10_failure_frame false _ _).2
      { id := "s1", name := "Alice", role := .staff } { id := "b1", name := "Weinbar" }
      { receipt_no := some "W1-41", short_no := some 41 } "o1" "qr"
      rfl rfl rfl rfl (by decide) rfl rfl (fun h => by cases h) rfl

/-! ## C2 — orders and their items as one logical unit -/

theorem isCents_list_sum (l : List ℚ) (h : ∀ x ∈ l, IsCents x) : IsCents l.sum := by
  induction l with
  | nil => simpa using isCents_zero
  | cons x xs ih =>
    rw [List.sum_cons]
    exact isCents_add (h x (by simp)) (ih fun y hy => h y (by simp [hy]))

/-- When every unit price is a whole number of cents, the stored line totals
sum to the cart's gross total: each `round2(price·qty)` and the outer `round2`
are identities on whole-cent amounts. -/
theorem checkoutItemRows_sum_eq_gross (cart : List CartLine) (orderId : String)
    (h : ∀ l ∈ cart, IsCents l.product.price_gross) :
    ((checkoutItemRows cart orderId).map (·.line_total_gross)).sum = grossTotal cart := by
  have hmap : (checkoutItemRows cart orderId).map (·.line_total_gross) =
      cart.map fun l => l.product.price_gross * (l.qty : ℚ) := by
    rw [checkoutItemRows, List.map_map]
    refine List.map_congr_left fun l hl => ?_
    simp only [Function.comp_apply]
    exact round2_eq_self_of_isCents (isCents_natMul (h l hl) l.qty)
  rw [hmap, grossTotal_eq_round2_sum,
    round2_eq_self_of_isCents (isCents_list_sum _ ?_)]
  intro x hx
  obtain ⟨l, hl, rfl⟩ := List.mem_map.mp hx
  exact isCents_natMul (h l hl) l.qty

/-- C2 counterexample: when the `order_items` insert fails after the `orders`
insert succeeded, finalize leaves exactly one persisted Order with zero
OrderItems (the error is surfaced, but the state the claim forbids exists). -/
theorem c2_item_failure_orphan_order :
    (doCheckout false
      { seqResult := .ok (some { receipt_no := some "W1-41", short_no := some 41 })
        orderInsert := .ok "o1"
        itemsInsert := .error "insert into order_items failed"
        printInsert := .ok ()
        qrRender := .ok "qr"
        publicToken := "tok"
        deviceId := "dev"
        nowISO := "2025-08-01T18:00:00.000Z" }
      { staff := some { id := "s1", name := "Alice", role := .staff }
        bars := [{ id := "b1", name := "Weinbar" }]
        selectedBar := some { id := "b1", name := "Weinbar" }
        cart := [⟨productA, 2⟩]
        paymentMethod := .cash
        lastReceipt := none
        qrDataUrl := none
        errorMsg := none
        voidMsg := none
        adminMsg := none
        adminUnlocked := false
        adminUser := none
        db := ⟨[], [], [], []⟩ }).db.orders.length = 1 ∧
    (doCheckout false
      { seqResult := .ok (some { receipt_no := some "W1-41", short_no := some 41 })
        orderInsert := .ok "o1"
        itemsInsert := .error "insert into order_items failed"
        printInsert := .ok ()
        qrRender := .ok "qr"
        publicToken := "tok"
        deviceId := "dev"
        nowISO := "2025-08-01T18:00:00.000Z" }
      { staff := some { id := "s1", name := "Alice", role := .staff }
        bars := [{ id := "b1", name := "Weinbar" }]
        selectedBar := some { id := "b1", name := "Weinbar" }
        cart := [⟨productA, 2⟩]
        paymentMethod := .cash
        lastReceipt := none
        qrDataUrl := none
        errorMsg := none
        voidMsg := none
        adminMsg := none
        adminUnlocked := false
        adminUser := none
        db := ⟨[], [], [], []⟩ }).db.order_items = [] ∧
    (doCheckout false
      { seqResult := .ok (some { receipt_no := some "W1-41", short_no := some 41 })
        orderInsert := .ok "o1"
        itemsInsert := .error "insert into order_items failed"
        printInsert := .ok ()
        qrRender := .ok "qr"
        publicToken := "tok"
        deviceId := "dev"
        nowISO := "2025-08-01T18:00:00.000Z" }
      { staff := some { id := "s1", name := "Alice", role := .staff }
        bars := [{ id := "b1", name := "Weinbar" }]
        selectedBar := some { id := "b1", name := "Weinbar" }
        cart := [⟨productA, 2⟩]
        paymentMethod := .cash
        lastReceipt := none
        qrDataUrl := none
        errorMsg := none
        voidMsg := none
        adminMsg := none
        adminUnlocked := false
        adminUser := none
        db := ⟨[], [], [], []⟩ }).errorMsg = some "insert into order_items failed" := by
  refine ⟨?_, ?_, ?_⟩ <;> rfl

/-- C2 (amended): a finalize run in which the order insert and the item insert
both succeed appends exactly one Order and its OrderItems — one per cart line,
hence at least one — and, whenever the unit prices are whole cents (as every
price fed through `round2`-produced data is), their line totals sum to the
Order's gross; an item-insert failure after the order write instead leaves
the order with zero items and surfaces the error (see the counterexample). -/
theorem c2_finalize_items_one_unit (p : Bool) (env : CheckoutEnv) (s : UiState)
    (staff : StaffAuth) (bar : Bar) (row : SeqRow) (orderId q : String)
    (hstaff : s.staff = some staff) (hbar : s.selectedBar = some bar)
    (hcart : s.cart.isEmpty = false)
    (hseq : env.seqResult = .ok (some row)) (hrow : row.hasNumbers = true)
    (hord : env.orderInsert = .ok orderId) (hitems : env.itemsInsert = .ok ())
    (hprint : p = true → env.printInsert = .ok ()) (hqr : env.qrRender = .ok q) :
    (∃ o : OrderRow, (doCheckout p env s).db.orders = s.db.orders ++ [o] ∧
      o.id = orderId ∧ o.gross_total = grossTotal s.cart) ∧
    (doCheckout p env s).db.order_items = s.db.order_items ++ checkoutItemRows s.cart orderId ∧
    checkoutItemRows s.cart orderId ≠ [] ∧
    (∀ i ∈ checkoutItemRows s.cart orderId, i.order_id = orderId) ∧
    ((∀ l ∈ s.cart, IsCents l.product.price_gross) →
      ((checkoutItemRows s.cart orderId).map (·.line_total_gross)).sum = grossTotal s.cart) := by
  rw [doCheckout_success p env s staff bar row orderId q hstaff hbar hcart hseq hrow hord
    hitems hprint hqr]
  refine ⟨⟨_, rfl, rfl, rfl⟩, rfl, ?_, ?_, checkoutItemRows_sum_eq_gross s.cart orderId⟩
  · rw [checkoutItemRows]
    intro hnil
    rw [List.map_eq_nil_iff] at hnil
    rw [hnil] at hcart
    simp at hcart
  · intro i hi
    rw [checkoutItemRows] at hi
    obtain ⟨l, _, rfl⟩ := List.mem_map.mp hi
    rfl

/-- Witness for C2 (amended) at a concrete all-success checkout. -/
theorem c2_finalize_items_one_unit_witness :
    (∃ o : OrderRow,
      (doCheckout false
        { seqResult := .ok (some { receipt_no := some "W1-41", short_no := some 41 })
          orderInsert := .ok "o1"
          itemsInsert := .ok ()
          printInsert := .ok ()
          qrRender := .ok "qr"
          publicToken := "tok"
          deviceId := "dev"
          nowISO := "2025-08-01T18:00:00.000Z" }
        { staff := some { id := "s1", name := "Alice", role := .staff }
          bars := [{ id := "b1", name := "Weinbar" }]
          selectedBar := some { id := "b1", name := "Weinbar" }
          cart := [⟨productA, 2⟩, ⟨productB, 1⟩]
          paymentMethod := .cash
          lastReceipt := none
          qrDataUrl := none
          errorMsg := none
          voidMsg := none
          adminMsg := none
          adminUnlocked := false
          adminUser := none
          db := ⟨[], [], [], []⟩ }).db.orders = [] ++ [o] ∧
        o.id = "o1" ∧ o.gross_total = grossTotal [⟨productA, 2⟩, ⟨productB, 1⟩]) ∧
    (doCheckout false
      { seqResult := .ok (some { receipt_no := some "W1-41", short_no := some 41 })
        orderInsert := .ok "o1"
        itemsInsert := .ok ()
        printInsert := .ok ()
        qrRender := .ok "qr"
        publicToken := "tok"
        deviceId := "dev"
        nowISO := "2025-08-01T18:00:00.000Z" }
      { staff := some { id := "s1", name := "Alice", role := .staff }
        bars := [{ id := "b1", name := "Weinbar" }]
        selectedBar := some { id := "b1", name := "Weinbar" }
        cart := [⟨productA, 2⟩, ⟨productB, 1⟩]
        paymentMethod := .cash
        lastReceipt := none
        qrDataUrl := none
        errorMsg := none
        voidMsg := none
        adminMsg := none
        adminUnlocked := false
        adminUser := none
        db := ⟨[], [], [], []⟩ }).db.order_items =
      [] ++ checkoutItemRows [⟨productA, 2⟩, ⟨productB, 1⟩] "o1" ∧
    checkoutItemRows [⟨productA, 2⟩, ⟨productB, 1⟩] "o1" ≠ [] ∧
    (∀ i ∈ checkoutItemRows [⟨productA, 2⟩, ⟨productB, 1⟩] "o1", i.order_id = "o1") ∧
    ((∀ l ∈ [(⟨productA, 2⟩ : CartLine), ⟨productB, 1⟩], IsCents l.product.price_gross) →
      ((checkoutItemRows [⟨productA, 2⟩, ⟨productB, 1⟩] "o1").map (·.line_total_gross)).sum =
        grossTotal [⟨productA, 2⟩, ⟨productB, 1⟩]) :=
  c2_finalize_items_one_unit false _ _
    { id := "s1", name := "Alice", role := .staff } { id := "b1", name := "Weinbar" }
    { receipt_no := some "W1-41", short_no := some 41 } "o1" "qr"
    rfl rfl rfl rfl (by decide) rfl rfl (fun h => by cases h) rfl

/-! ## Void evaluation lemmas -/

/-- Evaluation of a fully successful self-service void. -/
theorem voidLastReceiptNoReason_success (env : VoidEnv) (s : UiState)
    (lr : ReceiptResponse) (auth : StaffAuth)
    (hlr : s.lastReceipt = some lr) (hpin : env.pinResult = some auth)
    (hupd : env.updateResult = .ok ()) (hins : env.insertResult = .ok ()) :
    voidLastReceiptNoReason env s =
      { s with
        voidMsg := some ("Storno ok: " ++ lr.receipt_no)
        db := { s.db with
          orders := setVoided s.db.orders lr.order_id env.nowISO
          voids := s.db.voids ++
            [{ order_id := lr.order_id
               voided_by := auth.role.label ++ ":" ++ auth.name
               reason := "" }] } } := by
  obtain ⟨st, bars, selBar, cart, pm, lr0, qr0, em, vm, am, aunl, auser, dbo⟩ := s
  obtain ⟨pin, upd, ins, now⟩ := env
  simp only at hlr hpin hupd hins ⊢
  subst hlr hpin hupd hins
  simp [voidLastReceiptNoReason]

/-- Evaluation of a fully successful administrative void. -/
theorem adminVoidByReceipt_success (env : VoidEnv) (rIn reasonIn : String) (s : UiState)
    (X : OrderRow)
    (hunlock : s.adminUnlocked = true)
    (hr : strTrim rIn ≠ "") (hreason : strTrim reasonIn ≠ "")
    (horder : s.db.orders.filter
      (fun o => o.event_id == EVENT_ID && o.receipt_no == strTrim rIn) = [X])
    (hX : X.status ≠ .voided)
    (hupd : env.updateResult = .ok ()) (hins : env.insertResult = .ok ()) :
    adminVoidByReceipt env rIn reasonIn s =
      { s with
        adminMsg := some ("Storno ok: " ++ strTrim rIn)
        db := { s.db with
          orders := setVoided s.db.orders X.id env.nowISO
          voids := s.db.voids ++
            [{ order_id := X.id
               voided_by := match s.adminUser with
                 | some au => au.role.label ++ ":" ++ au.name
                 | none => "admin"
               reason := strTrim reasonIn }] } } := by
  obtain ⟨st, bars, selBar, cart, pm, lr0, qr0, em, vm, am, aunl, auser, dbo⟩ := s
  obtain ⟨pin, upd, ins, now⟩ := env
  simp only at hunlock horder hupd hins ⊢
  subst hunlock hupd hins
  simp only [adminVoidByReceipt, Bool.not_true, Bool.false_eq_true, if_false, if_neg hr,
    if_neg hreason, horder, singleRow, if_neg hX]

/-- Transactional void invariant: every Voided order has a VoidRecord and
every VoidRecord's order (when present) is Voided. -/
def VoidConsistent (db : DB) : Prop :=
  (∀ o ∈ db.orders, o.status = .voided → ∃ v ∈ db.voids, v.order_id = o.id) ∧
  (∀ v ∈ db.voids, ∀ o ∈ db.orders, o.id = v.order_id → o.status = .voided)

/-- Concrete completed order used by the void scenarios. -/
def exampleOrderRow : OrderRow :=
  { id := "o1", event_id := EVENT_ID, bar_id := "b1", device_id := "dev",
    cashier_staff_id := "s1", cashier_name_snapshot := "Alice",
    cashier_role_snapshot := .staff, receipt_no := "W1-41", short_no := 41,
    public_token := "tok", payment_method := .cash, status := .completed,
    gross_total := 5, tax_rate := 1 / 5, tax_total := 83 / 100,
    net_total := 417 / 100, created_at := "2025-08-01T18:00:00.000Z",
    voided_at := none }

/-- Concrete state right after finalizing `exampleOrderRow`, ready for a
self-service void. -/
def exampleVoidState : UiState :=
  { staff := some { id := "s1", name := "Alice", role := .staff }
    bars := [{ id := "b1", name := "Weinbar" }]
    selectedBar := some { id := "b1", name := "Weinbar" }
    cart := []
    paymentMethod := .cash
    lastReceipt := some
      { order_id := "o1", receipt_no := "W1-41", short_no := 41,
        public_token := "tok", receipt_url := "/r/tok",
        gross := 5, tax := 83 / 100, net := 417 / 100 }
    qrDataUrl := none
    errorMsg := none
    voidMsg := none
    adminMsg := none
    adminUnlocked := false
    adminUser := none
    db := ⟨[exampleOrderRow], [], [], []⟩ }

/-- Same state with the admin panel unlocked. -/
def exampleAdminState : UiState :=
  { exampleVoidState with
    adminUnlocked := true
    adminUser := some { id := "a1", name := "Chef", role := .admin } }

theorem exampleVoidState_consistent : VoidConsistent exampleVoidState.db := by
  unfold VoidConsistent
  decide

theorem exampleAdminState_consistent : VoidConsistent exampleAdminState.db := by
  unfold VoidConsistent
  decide

/-! ## C3 — void is not idempotent (admin path only) -/

/-- C3 counterexample: the self-service path performs no already-voided check.
Running `voidLastReceiptNoReason` twice on the same last receipt succeeds both
times ("Storno ok", not a rejection) and leaves two VoidRecords for the order. -/
theorem c3_self_service_double_void :
    ((voidLastReceiptNoReason
        { pinResult := some { id := "s1", name := "Alice", role := .staff }
          updateResult := .ok ()
          insertResult := .ok ()
          nowISO := "2025-08-01T19:05:00.000Z" }
        (voidLastReceiptNoReason
          { pinResult := some { id := "s1", name := "Alice", role := .staff }
            updateResult := .ok ()
            insertResult := .ok ()
            nowISO := "2025-08-01T19:00:00.000Z" }
          exampleVoidState)).db.voids.filter
        (fun v => v.order_id == "o1")).length = 2 ∧
    (voidLastReceiptNoReason
        { pinResult := some { id := "s1", name := "Alice", role := .staff }
          updateResult := .ok ()
          insertResult := .ok ()
          nowISO := "2025-08-01T19:05:00.000Z" }
        (voidLastReceiptNoReason
          { pinResult := some { id := "s1", name := "Alice", role := .staff }
            updateResult := .ok ()
            insertResult := .ok ()
            nowISO := "2025-08-01T19:00:00.000Z" }
          exampleVoidState)).voidMsg = some "Storno ok: W1-41" := by
  constructor
  · rfl
  · rfl

/-- Filtering by event and receipt number commutes with the void status
update, because the update never touches those two fields. -/
theorem filter_eventReceipt_setVoided (l : List OrderRow) (tid now r : String) :
    (setVoided l tid now).filter
        (fun o => o.event_id == EVENT_ID && o.receipt_no == r) =
      setVoided (l.filter fun o => o.event_id == EVENT_ID && o.receipt_no == r) tid now := by
  induction l with
  | nil => rfl
  | cons o rest ih =>
    by_cases hid : o.id = tid <;>
      by_cases hc : (o.event_id == EVENT_ID && o.receipt_no == r) = true <;>
      simp_all [setVoided, List.filter_cons]

/-- Evaluation of an administrative void that hits the already-voided guard:
nothing is written and only the message changes. -/
theorem adminVoidByReceipt_already_voided (env : VoidEnv) (rIn reasonIn : String)
    (s : UiState) (X : OrderRow)
    (hunlock : s.adminUnlocked = true)
    (hr : strTrim rIn ≠ "") (hreason : strTrim reasonIn ≠ "")
    (horder : s.db.orders.filter
      (fun o => o.event_id == EVENT_ID && o.receipt_no == strTrim rIn) = [X])
    (hX : X.status = .voided) :
    adminVoidByReceipt env rIn reasonIn s =
      { s with adminMsg := some "Dieser Bon ist bereits storniert." } := by
  obtain ⟨st, bars, selBar, cart, pm, lr0, qr0, em, vm, am, aunl, auser, dbo⟩ := s
  simp only at hunlock horder ⊢
  subst hunlock
  simp only [adminVoidByReceipt, Bool.not_true, Bool.false_eq_true, if_false, if_neg hr,
    if_neg hreason, horder, singleRow, if_pos hX]

/-- C3 (amended): the administrative path is not idempotent — after a
successful admin void, a second admin void of the same receipt is rejected
with the already-voided message, the database is not written again, and
exactly one VoidRecord exists for the order; the self-service path, by
contrast, has no such check (see the counterexample: it writes a second
VoidRecord). -/
theorem c3_admin_void_not_idempotent (env1 env2 : VoidEnv) (rIn reasonIn : String)
    (s : UiState) (X : OrderRow)
    (hunlock : s.adminUnlocked = true)
    (hr : strTrim rIn ≠ "") (hreason : strTrim reasonIn ≠ "")
    (horder : s.db.orders.filter
      (fun o => o.event_id == EVENT_ID && o.receipt_no == strTrim rIn) = [X])
    (hX : X.status ≠ .voided)
    (hv : s.db.voids.filter (fun v => v.order_id == X.id) = [])
    (hupd1 : env1.updateResult = .ok ()) (hins1 : env1.insertResult = .ok ()) :
    (adminVoidByReceipt env1 rIn reasonIn s).adminMsg =
      some ("Storno ok: " ++ strTrim rIn) ∧
    (adminVoidByReceipt env2 rIn reasonIn
        (adminVoidByReceipt env1 rIn reasonIn s)).adminMsg =
      some "Dieser Bon ist bereits storniert." ∧
    (adminVoidByReceipt env2 rIn reasonIn
        (adminVoidByReceipt env1 rIn reasonIn s)).db =
      (adminVoidByReceipt env1 rIn reasonIn s).db ∧
    ((adminVoidByReceipt env1 rIn reasonIn s).db.voids.filter
        (fun v => v.order_id == X.id)).length = 1 := by
  have h1 := adminVoidByReceipt_success env1 rIn reasonIn s X hunlock hr hreason horder hX
    hupd1 hins1
  have horder2 : (adminVoidByReceipt env1 rIn reasonIn s).db.orders.filter
      (fun o => o.event_id == EVENT_ID && o.receipt_no == strTrim rIn) =
      [{ X with status := .voided, voided_at := some env1.nowISO }] := by
    rw [h1]
    show (setVoided s.db.orders X.id env1.nowISO).filter _ = _
    rw [filter_eventReceipt_setVoided, horder, setVoided]
    simp
  have hunlock2 : (adminVoidByReceipt env1 rIn reasonIn s).adminUnlocked = true := by
    rw [h1]
    exact hunlock
  have h2 := adminVoidByReceipt_already_voided env2 rIn reasonIn
    (adminVoidByReceipt env1 rIn reasonIn s)
    { X with status := .voided, voided_at := some env1.nowISO }
    hunlock2 hr hreason horder2 rfl
  refine ⟨by rw [h1], by rw [h2], by rw [h2], ?_⟩
  rw [h1]
  show ((s.db.voids ++ _).filter _).length = 1
  rw [List.filter_append, hv]
  simp

/-- Witness for C3 (amended) on a concrete completed order. -/
theorem c3_admin_void_not_idempotent_witness :
    (adminVoidByReceipt
        { pinResult := none, updateResult := .ok (), insertResult := .ok (),
          nowISO := "2025-08-01T19:00:00.000Z" }
        "W1-41" "Irrtum" exampleAdminState).adminMsg =
      some ("Storno ok: " ++ strTrim "W1-41") ∧
    (adminVoidByReceipt
        { pinResult := none, updateResult := .ok (), insertResult := .ok (),
          nowISO := "2025-08-01T19:05:00.000Z" }
        "W1-41" "Irrtum"
        (adminVoidByReceipt
          { pinResult := none, updateResult := .ok (), insertResult := .ok (),
            nowISO := "2025-08-01T19:00:00.000Z" }
          "W1-41" "Irrtum" exampleAdminState)).adminMsg =
      some "Dieser Bon ist bereits storniert." ∧
    (adminVoidByReceipt
        { pinResult := none, updateResult := .ok (), insertResult := .ok (),
          nowISO := "2025-08-01T19:05:00.000Z" }
        "W1-41" "Irrtum"
        (adminVoidByReceipt
          { pinResult := none, updateResult := .ok (), insertResult := .ok (),
            nowISO := "2025-08-01T19:00:00.000Z" }
          "W1-41" "Irrtum" exampleAdminState)).db =
      (adminVoidByReceipt
        { pinResult := none, updateResult := .ok (), insertResult := .ok (),
          nowISO := "2025-08-01T19:00:00.000Z" }
        "W1-41" "Irrtum" exampleAdminState).db ∧
    ((adminVoidByReceipt
        { pinResult := none, updateResult := .ok (), insertResult := .ok (),
          nowISO := "2025-08-01T19:00:00.000Z" }
        "W1-41" "Irrtum" exampleAdminState).db.voids.filter
      (fun v => v.order_id == "o1")).length = 1 :=
  c3_admin_void_not_idempotent _ _ "W1-41" "Irrtum" exampleAdminState exampleOrderRow
    rfl (by decide) (by decide) (by decide) (by decide) (by decide) rfl rfl

/-! ## C4 — order status update and VoidRecord insert as one transaction -/

/-- Voiding the order with id `tid` while appending a VoidRecord for `tid`
preserves the transactional invariant. -/
theorem voidConsistent_step (db : DB) (tid now voidedBy reason : String)
    (h : VoidConsistent db) :
    VoidConsistent { db with
      orders := setVoided db.orders tid now
      voids := db.voids ++ [{ order_id := tid, voided_by := voidedBy, reason := reason }] } := by
  obtain ⟨h1, h2⟩ := h
  constructor
  · intro o ho hvoid
    obtain ⟨o0, ho0, rfl⟩ := List.mem_map.mp ho
    by_cases hid : o0.id = tid
    · refine ⟨{ order_id := tid, voided_by := voidedBy, reason := reason }, by simp, ?_⟩
      simp [hid]
    · simp only [if_neg hid] at hvoid ⊢
      obtain ⟨v, hv, hvid⟩ := h1 o0 ho0 hvoid
      exact ⟨v, by simp [hv], hvid⟩
  · intro v hv o ho hid
    obtain ⟨o0, ho0, rfl⟩ := List.mem_map.mp ho
    rcases List.mem_append.mp hv with hold | hnew
    · by_cases h0 : o0.id = tid
      · simp [h0]
      · simp only [if_neg h0] at hid ⊢
        exact h2 v hold o0 ho0 hid
    · simp only [List.mem_singleton] at hnew
      subst hnew
      by_cases h0 : o0.id = tid
      · simp [h0]
      · simp only [if_neg h0] at hid ⊢
        exact absurd hid h0

/-- C4 counterexample: if the `voids` insert fails after the `orders` update
succeeded, the state holds a Voided order with no VoidRecord at all — the two
writes are not one transaction. -/
theorem c4_void_insert_failure_counterexample :
    ((voidLastReceiptNoReason
        { pinResult := some { id := "s1", name := "Alice", role := .staff }
          updateResult := .ok ()
          insertResult := .error "insert into voids failed"
          nowISO := "2025-08-01T19:00:00.000Z" }
        exampleVoidState).db.orders.filter
      (fun o => o.status == OrderStatus.voided)).length = 1 ∧
    (voidLastReceiptNoReason
        { pinResult := some { id := "s1", name := "Alice", role := .staff }
          updateResult := .ok ()
          insertResult := .error "insert into voids failed"
          nowISO := "2025-08-01T19:00:00.000Z" }
        exampleVoidState).db.voids = [] ∧
    (voidLastReceiptNoReason
        { pinResult := some { id := "s1", name := "Alice", role := .staff }
          updateResult := .ok ()
          insertResult := .error "insert into voids failed"
          nowISO := "2025-08-01T19:00:00.000Z" }
        exampleVoidState).voidMsg = some "Fehler: insert into voids failed" := by
  refine ⟨?_, ?_, ?_⟩ <;> rfl

/-- C4 (amended): when both the status update and the VoidRecord insert
succeed, either void path preserves the transactional invariant (Voided order
⇔ VoidRecord); when the insert fails after the update, the invariant can be
broken — the failure is surfaced as an error but the Voided order stays
without a VoidRecord (see the counterexample). -/
theorem c4_void_consistency_preserved (s : UiState) (hcons : VoidConsistent s.db) :
    (∀ (env : VoidEnv) (lr : ReceiptResponse) (auth : StaffAuth),
      s.lastReceipt = some lr → env.pinResult = some auth →
      env.updateResult = .ok () → env.insertResult = .ok () →
      VoidConsistent (voidLastReceiptNoReason env s).db) ∧
    (∀ (env : VoidEnv) (rIn reasonIn : String) (X : OrderRow),
      s.adminUnlocked = true → strTrim rIn ≠ "" → strTrim reasonIn ≠ "" →
      s.db.orders.filter
        (fun o => o.event_id == EVENT_ID && o.receipt_no == strTrim rIn) = [X] →
      X.status ≠ .voided →
      env.updateResult = .ok () → env.insertResult = .ok () →
      VoidConsistent (adminVoidByReceipt env rIn reasonIn s).db) := by
  constructor
  · intro env lr auth hlr hpin hupd hins
    rw [voidLastReceiptNoReason_success env s lr auth hlr hpin hupd hins]
    exact voidConsistent_step s.db lr.order_id env.nowISO
      (auth.role.label ++ ":" ++ auth.name) "" hcons
  · intro env rIn reasonIn X hunlock hr hreason horder hX hupd hins
    rw [adminVoidByReceipt_success env rIn reasonIn s X hunlock hr hreason horder hX hupd hins]
    exact voidConsistent_step s.db X.id env.nowISO _ (strTrim reasonIn) hcons

/-- Witness for C4 (amended): both paths on concrete states. -/
theorem c4_void_consistency_preserved_witness :
    VoidConsistent
      (voidLastReceiptNoReason
        { pinResult := some { id := "s1", name := "Alice", role := .staff }
          updateResult := .ok ()
          insertResult := .ok ()
          nowISO := "2025-08-01T19:00:00.000Z" }
        exampleVoidState).db ∧
    VoidConsistent
      (adminVoidByReceipt
        { pinResult := none, updateResult := .ok (), insertResult := .ok (),
          nowISO := "2025-08-01T19:00:00.000Z" }
        "W1-41" "Irrtum" exampleAdminState).db :=
  ⟨(c4_void_consistency_preserved exampleVoidState exampleVoidState_consistent).1
      _ _ { id := "s1", name := "Alice", role := .staff } rfl rfl rfl rfl,
    (c4_void_consistency_preserved exampleAdminState exampleAdminState_consistent).2
      _ "W1-41" "Irrtum" exampleOrderRow rfl (by decide) (by decide) (by decide)
      (by decide) rfl rfl⟩

/-! ## C6 — receipt renderer determinism and reprint fidelity -/

/-- Receipt-renderer arguments of the spec's example order. -/
def exampleArgs : ReceiptArgs :=
  { barName := "Weinbar"
    receiptNo := "W1-41"
    createdAtISO := "2025-08-01T18:00:00.000Z"
    payment := .cash
    lines := [{ qty := 2, name := "ProduktA", lineTotal := 5 }]
    gross := 8
    tax := 133 / 100
    net := 667 / 100 }

/-- C6 counterexample: the renderer is *not* a function of the listed receipt
data alone — it also reads the logged-in `staff` state for the `Kassier:`
line, so rendering identical receipt data under two different logins yields
different text.  A reprint is therefore not byte-identical to the original
when someone else is logged in. -/
theorem c6_renderer_depends_on_login :
    buildReceiptText (some { id := "s1", name := "Alice", role := .staff }) exampleArgs ≠
      buildReceiptText (some { id := "a1", name := "Bob", role := .admin }) exampleArgs := by
  decide

/-- Evaluation of a successful administrative reprint. -/
theorem adminReprintByReceipt_success (env2 : ReprintEnv) (rIn : String) (s : UiState)
    (X : OrderRow)
    (hunlock : s.adminUnlocked = true) (hr : strTrim rIn ≠ "")
    (horder : s.db.orders.filter
      (fun o => o.event_id == EVENT_ID && o.receipt_no == strTrim rIn) = [X])
    (hins : env2.printInsert = .ok ()) :
    adminReprintByReceipt env2 rIn s =
      { s with
        adminMsg := some ("Reprint queued: " ++ strTrim rIn)
        db := { s.db with print_jobs := s.db.print_jobs ++
          [{ event_id := EVENT_ID
             order_id := X.id
             payload := buildReceiptText s.staff
               { barName := match s.bars.find? (fun b => b.id == X.bar_id) with
                   | some b => b.name
                   | none => "Bar"
                 receiptNo := X.receipt_no
                 createdAtISO := X.created_at
                 payment := X.payment_method
                 lines := (s.db.order_items.filter (fun i => i.order_id == X.id)).map
                   fun x => { qty := x.qty, name := x.name_snapshot,
                              lineTotal := x.line_total_gross }
                 gross := X.gross_total
                 tax := X.tax_total
                 net := X.net_total }
             status := .queued }] } } := by
  obtain ⟨st, bars, selBar, cart, pm, lr0, qr0, em, vm, am, aunl, auser, dbo⟩ := s
  obtain ⟨pins⟩ := env2
  simp only at hunlock horder hins ⊢
  subst hunlock hins
  simp only [adminReprintByReceipt, Bool.not_true, Bool.false_eq_true, if_false, if_neg hr,
    horder, singleRow]

/-- C6 (amended): `buildReceiptText` is a deterministic pure function of the
receipt data *and the logged-in staff state*; reprinting an order right after
its finalize — with the same cashier still logged in — enqueues a print job
whose payload is byte-identical to the one enqueued at finalize time.  (With a
different login the `Kassier:` line differs: see the counterexample.) -/
theorem c6_reprint_matches_finalize (env : CheckoutEnv) (env2 : ReprintEnv) (s : UiState)
    (staff : StaffAuth) (bar : Bar) (row : SeqRow) (orderId q : String)
    (hstaff : s.staff = some staff) (hbar : s.selectedBar = some bar)
    (hcart : s.cart.isEmpty = false)
    (hseq : env.seqResult = .ok (some row)) (hrow : row.hasNumbers = true)
    (hord : env.orderInsert = .ok orderId) (hitems : env.itemsInsert = .ok ())
    (hprint : env.printInsert = .ok ()) (hqr : env.qrRender = .ok q)
    (hunlock : s.adminUnlocked = true)
    (htrim : strTrim (row.receipt_no.getD "") = row.receipt_no.getD "")
    (hrn : row.receipt_no.getD "" ≠ "")
    (hempty : s.db.orders.filter
      (fun o => o.event_id == EVENT_ID && o.receipt_no == row.receipt_no.getD "") = [])
    (hfresh : s.db.order_items.filter (fun i => i.order_id == orderId) = [])
    (hfind : s.bars.find? (fun b => b.id == bar.id) = some bar)
    (hins2 : env2.printInsert = .ok ()) :
    ∃ payload : String,
      (doCheckout true env s).db.print_jobs = s.db.print_jobs ++
        [{ event_id := EVENT_ID, order_id := orderId, payload := payload,
           status := .queued }] ∧
      (adminReprintByReceipt env2 (row.receipt_no.getD "")
          (doCheckout true env s)).db.print_jobs =
        (doCheckout true env s).db.print_jobs ++
          [{ event_id := EVENT_ID, order_id := orderId, payload := payload,
             status := .queued }] ∧
      (adminReprintByReceipt env2 (row.receipt_no.getD "")
          (doCheckout true env s)).adminMsg =
        some ("Reprint queued: " ++ row.receipt_no.getD "") := by
  have hchk := doCheckout_success true env s staff bar row orderId q hstaff hbar hcart hseq
    hrow hord hitems (fun _ => hprint) hqr
  set rn := row.receipt_no.getD "" with hrn_def
  set payload1 := buildReceiptText (some staff)
    (checkoutArgs bar rn env.nowISO s.paymentMethod s.cart) with hpayload_def
  set newOrder : OrderRow :=
    { id := orderId
      event_id := EVENT_ID
      bar_id := bar.id
      device_id := env.deviceId
      cashier_staff_id := staff.id
      cashier_name_snapshot := staff.name
      cashier_role_snapshot := staff.role
      receipt_no := rn
      short_no := row.short_no.getD 0
      public_token := env.publicToken
      payment_method := s.paymentMethod
      status := .completed
      gross_total := grossTotal s.cart
      tax_rate := 1 / 5
      tax_total := taxTotal s.cart
      net_total := netTotal s.cart
      created_at := env.nowISO
      voided_at := none } with hnew_def
  have hunlock1 : (doCheckout true env s).adminUnlocked = true := by
    rw [hchk]
    exact hunlock
  have horder1 : (doCheckout true env s).db.orders.filter
      (fun o => o.event_id == EVENT_ID && o.receipt_no == strTrim rn) = [newOrder] := by
    rw [hchk, htrim]
    show (s.db.orders ++ [newOrder]).filter _ = [newOrder]
    rw [List.filter_append, hempty]
    simp [hnew_def]
  have hrep := adminReprintByReceipt_success env2 rn (doCheckout true env s) newOrder
    hunlock1 (by rw [htrim]; exact hrn) horder1 hins2
  have hitems1 : (doCheckout true env s).db.order_items.filter
      (fun i => i.order_id == newOrder.id) = checkoutItemRows s.cart orderId := by
    rw [hchk]
    show (s.db.order_items ++ checkoutItemRows s.cart orderId).filter _ = _
    rw [List.filter_append]
    have : newOrder.id = orderId := rfl
    rw [this, hfresh]
    rw [List.nil_append]
    refine List.filter_eq_self.mpr fun i hi => ?_
    rw [checkoutItemRows] at hi
    obtain ⟨l, _, rfl⟩ := List.mem_map.mp hi
    simp
  refine ⟨payload1, ?_, ?_, ?_⟩
  · rw [hchk]
    simp
  · rw [hrep]
    have hstaff1 : (doCheckout true env s).staff = some staff := by
      rw [hchk]
      exact hstaff
    have hbars1 : (doCheckout true env s).bars = s.bars := by rw [hchk]
    simp only [hitems1, hstaff1, hbars1, hfind]
    simp only [List.append_cancel_left_eq, List.cons.injEq, PrintJobRow.mk.injEq, and_true,
      true_and]
    rw [hpayload_def, checkoutArgs, checkoutItemRows, List.map_map]
    rfl
  · rw [hrep]
    simp [htrim]

/-- All-success checkout environment used by the reprint witness. -/
def envOkW : CheckoutEnv :=
  { seqResult := .ok (some { receipt_no := some "W1-41", short_no := some 41 })
    orderInsert := .ok "o1"
    itemsInsert := .ok ()
    printInsert := .ok ()
    qrRender := .ok "qr"
    publicToken := "tok"
    deviceId := "dev"
    nowISO := "2025-08-01T18:00:00.000Z" }

/-- Ready-to-checkout state with the admin panel already unlocked, used by the
reprint witness. -/
def reprintStateW : UiState :=
  { staff := some { id := "s1", name := "Alice", role := .staff }
    bars := [{ id := "b1", name := "Weinbar" }]
    selectedBar := some { id := "b1", name := "Weinbar" }
    cart := [⟨productA, 2⟩]
    paymentMethod := .cash
    lastReceipt := none
    qrDataUrl := none
    errorMsg := none
    voidMsg := none
    adminMsg := none
    adminUnlocked := true
    adminUser := some { id := "a1", name := "Chef", role := .admin }
    db := ⟨[], [], [], []⟩ }

/-- Witness for C6 (amended): finalize-then-reprint on a concrete state, same
login, enqueues two print jobs with identical payloads. -/
theorem c6_reprint_matches_finalize_witness :
    ∃ payload : String,
      (doCheckout true envOkW reprintStateW).db.print_jobs = [] ++
        [{ event_id := EVENT_ID, order_id := "o1", payload := payload,
           status := .queued }] ∧
      (adminReprintByReceipt { printInsert := .ok () } "W1-41"
          (doCheckout true envOkW reprintStateW)).db.print_jobs =
        (doCheckout true envOkW reprintStateW).db.print_jobs ++
          [{ event_id := EVENT_ID, order_id := "o1", payload := payload,
             status := .queued }] ∧
      (adminReprintByReceipt { printInsert := .ok () } "W1-41"
          (doCheckout true envOkW reprintStateW)).adminMsg =
        some ("Reprint queued: " ++ "W1-41") :=
  c6_reprint_matches_finalize envOkW { printInsert := .ok () } reprintStateW
    { id := "s1", name := "Alice", role := .staff } { id := "b1", name := "Weinbar" }
    { receipt_no := some "W1-41", short_no := some 41 } "o1" "qr"
    rfl rfl rfl rfl (by decide) rfl rfl rfl rfl rfl (by decide) (by decide) rfl rfl rfl rfl

/-! ## C7 — report aggregates exactly the Completed orders in range -/

/-- A voided row never passes the report predicate. -/
theorem reportPred_voided (range : RRange) (start : String) (o : OrderRow) (now : String) :
    reportPred range start { o with status := .voided, voided_at := some now } = false := by
  have hst : (OrderStatus.voided == OrderStatus.completed) = false := rfl
  simp [reportPred, hst]

/-- Voiding the order `tid` removes exactly the rows with id `tid` from the
report query — all other rows pass the predicate exactly as before. -/
theorem filter_reportPred_setVoided (range : RRange) (start : String) (l : List OrderRow)
    (tid now : String) :
    (setVoided l tid now).filter (reportPred range start) =
      (l.filter (reportPred range start)).filter (fun o => !(o.id == tid)) := by
  induction l with
  | nil => rfl
  | cons o rest ih =>
    have hcons : setVoided (o :: rest) tid now =
        (if o.id = tid then { o with status := .voided, voided_at := some now } else o) ::
          setVoided rest tid now := rfl
    rw [hcons, List.filter_cons, List.filter_cons]
    by_cases hid : o.id = tid
    · rw [if_pos hid, reportPred_voided, ih]
      by_cases hp : reportPred range start o = true
      · rw [if_pos hp, List.filter_cons]
        simp [hid]
      · rw [if_neg hp]
        simp
    · rw [if_neg hid]
      by_cases hp : reportPred range start o = true
      · rw [if_pos hp, if_pos hp, List.filter_cons, ih]
        simp [hid]
      · rw [if_neg hp, if_neg hp, ih]

/-- Removing the unique row with id `tid` removes exactly its contribution
from a mapped sum. -/
theorem sum_map_filter_ne (l : List OrderRow) (f : OrderRow → ℚ) (tid : String) (X : OrderRow)
    (hX : l.filter (fun o => o.id == tid) = [X]) :
    ((l.filter fun o => !(o.id == tid)).map f).sum = (l.map f).sum - f X := by
  induction l with
  | nil => simp at hX
  | cons o rest ih =>
    rw [List.filter_cons] at hX
    by_cases hid : (o.id == tid) = true
    · rw [if_pos hid] at hX
      simp only [List.cons.injEq] at hX
      obtain ⟨rfl, hrest⟩ := hX
      have hall : rest.filter (fun o => !(o.id == tid)) = rest :=
        List.filter_eq_self.mpr fun a ha => by
          have := List.filter_eq_nil_iff.mp hrest a ha
          simpa using this
      rw [List.filter_cons, if_neg (by simp [hid]), hall, List.map_cons, List.sum_cons]
      ring
    · rw [if_neg hid] at hX
      rw [List.filter_cons, if_pos (by simpa using hid), List.map_cons, List.sum_cons,
        List.map_cons, List.sum_cons, ih hX]
      ring

/-- Removing the unique row with id `tid` shortens the list by one. -/
theorem length_filter_ne (l : List OrderRow) (tid : String) (X : OrderRow)
    (hX : l.filter (fun o => o.id == tid) = [X]) :
    (l.filter fun o => !(o.id == tid)).length = l.length - 1 := by
  induction l with
  | nil => simp at hX
  | cons o rest ih =>
    rw [List.filter_cons] at hX
    by_cases hid : (o.id == tid) = true
    · rw [if_pos hid] at hX
      simp only [List.cons.injEq] at hX
      obtain ⟨rfl, hrest⟩ := hX
      have hall : rest.filter (fun o => !(o.id == tid)) = rest :=
        List.filter_eq_self.mpr fun a ha => by
          have := List.filter_eq_nil_iff.mp hrest a ha
          simpa using this
      rw [List.filter_cons, if_neg (by simp [hid]), hall]
      simp
    · rw [if_neg hid] at hX
      have hmem : X ∈ rest := by
        have : X ∈ rest.filter (fun o => o.id == tid) := by rw [hX]; simp
        exact List.mem_of_mem_filter this
      have hpos : 1 ≤ rest.length := List.length_pos.mpr (List.ne_nil_of_mem hmem)
      rw [List.filter_cons, if_pos (by simpa using hid), List.length_cons, ih hX,
        List.length_cons]
      omega

/-- Grand-total projections of `reportOf` as sums over the query result. -/
theorem reportOf_totals (range : RRange) (start : String) (bars : List Bar) (db : DB) :
    (reportOf range start bars db).totals.brutto =
      round2 (((reportOrders range start db).map (·.gross_total)).sum) ∧
    (reportOf range start bars db).totals.ust =
      round2 (((reportOrders range start db).map (·.tax_total)).sum) ∧
    (reportOf range start bars db).totals.netto =
      round2 (((reportOrders range start db).map (·.net_total)).sum) ∧
    (reportOf range start bars db).totals.bons = (reportOrders range start db).length := by
  refine ⟨?_, ?_, ?_, rfl⟩ <;>
    · show round2 ((reportOrders range start db).foldl _ 0) = _
      rw [foldl_add_eq_sum]
      simp

/-- Per-bar breakdown of the report is sorted descending by gross. -/
theorem reportOf_byBar_sorted (range : RRange) (start : String) (bars : List Bar) (db : DB) :
    (reportOf range start bars db).byBar.Pairwise bruttoDescBar :=
  List.sorted_insertionSort bruttoDescBar _

/-- Per-product breakdown of the report is sorted descending by gross. -/
theorem reportOf_byProduct_sorted (range : RRange) (start : String) (bars : List Bar)
    (db : DB) :
    (reportOf range start bars db).byProduct.Pairwise bruttoDescProd := by
  show (if ((reportOrders range start db).map (·.id)).isEmpty then [] else _).Pairwise _
  split
  · exact List.Pairwise.nil
  · exact List.sorted_insertionSort bruttoDescProd _

/-- C7: the report reads only status-Completed orders of the event inside the
selected range (voided orders are excluded by the query predicate itself); its
per-stall and per-product breakdowns are sorted descending by gross; and
voiding one order between two runs removes exactly that order's totals —
count down by one, gross/tax/net down by exactly that order's stored totals —
leaving every other order's contribution unchanged. -/
theorem c7_report_completed_only (range : RRange) (start : String) (s : UiState)
    (tid now : String) (X : OrderRow)
    (hadmin : s.adminUnlocked = true)
    (hX : (reportOrders range start s.db).filter (fun o => o.id == tid) = [X])
    (hcents : ∀ o ∈ reportOrders range start s.db,
      IsCents o.gross_total ∧ IsCents o.tax_total ∧ IsCents o.net_total) :
    loadReport range start s = .ok (reportOf range start s.bars s.db) ∧
    loadReport range start { s with db := { s.db with orders := setVoided s.db.orders tid now } } =
      .ok (reportOf range start s.bars { s.db with orders := setVoided s.db.orders tid now }) ∧
    (∀ o ∈ reportOrders range start s.db,
      o.status = .completed ∧ o.event_id = EVENT_ID ∧
        (range = .today → strGe o.created_at start = true)) ∧
    (reportOf range start s.bars { s.db with orders := setVoided s.db.orders tid now }).totals.bons =
      (reportOf range start s.bars s.db).totals.bons - 1 ∧
    (reportOf range start s.bars { s.db with orders := setVoided s.db.orders tid now }).totals.brutto =
      (reportOf range start s.bars s.db).totals.brutto - X.gross_total ∧
    (reportOf range start s.bars { s.db with orders := setVoided s.db.orders tid now }).totals.ust =
      (reportOf range start s.bars s.db).totals.ust - X.tax_total ∧
    (reportOf range start s.bars { s.db with orders := setVoided s.db.orders tid now }).totals.netto =
      (reportOf range start s.bars s.db).totals.netto - X.net_total ∧
    (reportOf range start s.bars s.db).byBar.Pairwise bruttoDescBar ∧
    (reportOf range start s.bars s.db).byProduct.Pairwise bruttoDescProd := by
  have horders2 : reportOrders range start { s.db with orders := setVoided s.db.orders tid now } =
      (reportOrders range start s.db).filter (fun o => !(o.id == tid)) := by
    show (setVoided s.db.orders tid now).filter (reportPred range start) = _
    exact filter_reportPred_setVoided range start s.db.orders tid now
  have hXmem : X ∈ reportOrders range start s.db := by
    have : X ∈ (reportOrders range start s.db).filter (fun o => o.id == tid) := by
      rw [hX]; simp
    exact List.mem_of_mem_filter this
  have hcentsX := hcents X hXmem
  have hsum : ∀ f : OrderRow → ℚ, (∀ o ∈ reportOrders range start s.db, IsCents (f o)) →
      round2 ((((reportOrders range start s.db).filter fun o => !(o.id == tid)).map f).sum) =
        round2 (((reportOrders range start s.db).map f).sum) - f X := by
    intro f hf
    rw [sum_map_filter_ne _ f tid X hX]
    have h1 : IsCents (((reportOrders range start s.db).map f).sum) :=
      isCents_list_sum _ fun x hx => by
        obtain ⟨o, ho, rfl⟩ := List.mem_map.mp hx
        exact hf o ho
    rw [round2_eq_self_of_isCents (isCents_sub h1 (hf X hXmem)),
      round2_eq_self_of_isCents h1]
  obtain ⟨hb1, hu1, hn1, hc1⟩ := reportOf_totals range start s.bars s.db
  obtain ⟨hb2, hu2, hn2, hc2⟩ :=
    reportOf_totals range start s.bars { s.db with orders := setVoided s.db.orders tid now }
  refine ⟨by simp [loadReport, hadmin], by simp [loadReport, hadmin], ?_, ?_, ?_, ?_, ?_,
    reportOf_byBar_sorted range start s.bars s.db,
    reportOf_byProduct_sorted range start s.bars s.db⟩
  · intro o ho
    have hpred := List.of_mem_filter ho
    unfold reportPred at hpred
    simp only [Bool.and_eq_true, beq_iff_eq] at hpred
    refine ⟨hpred.1.2, hpred.1.1, ?_⟩
    intro hr
    subst hr
    exact hpred.2
  · rw [hc1, hc2, horders2]
    exact length_filter_ne _ tid X hX
  · rw [hb1, hb2, horders2]
    exact hsum (·.gross_total) fun o ho => (hcents o ho).1
  · rw [hu1, hu2, horders2]
    exact hsum (·.tax_total) fun o ho => (hcents o ho).2.1
  · rw [hn1, hn2, horders2]
    exact hsum (·.net_total) fun o ho => (hcents o ho).2.2

/-- Second completed order of the report scenario (€8.00 gross). -/
def reportOrder2 : OrderRow :=
  { exampleOrderRow with
    id := "o2"
    receipt_no := "W1-42"
    short_no := 42
    gross_total := 8
    tax_total := 133 / 100
    net_total := 667 / 100 }

/-- Admin-unlocked state with two completed orders, for the report witness. -/
def reportStateW : UiState :=
  { exampleAdminState with db := ⟨[exampleOrderRow, reportOrder2], [], [], []⟩ }

/-- Witness for C7: voiding order "o2" between two report runs drops the
count by one and the gross by exactly €8.00, and the breakdown is sorted. -/
theorem c7_report_completed_only_witness :
    (reportOf .all "" reportStateW.bars
        { reportStateW.db with
          orders := setVoided reportStateW.db.orders "o2"
            "2025-08-02T00:00:00.000Z" }).totals.bons =
      (reportOf .all "" reportStateW.bars reportStateW.db).totals.bons - 1 ∧
    (reportOf .all "" reportStateW.bars
        { reportStateW.db with
          orders := setVoided reportStateW.db.orders "o2"
            "2025-08-02T00:00:00.000Z" }).totals.brutto =
      (reportOf .all "" reportStateW.bars reportStateW.db).totals.brutto -
        reportOrder2.gross_total ∧
    (reportOf .all "" reportStateW.bars reportStateW.db).byBar.Pairwise bruttoDescBar ∧
    (∀ o ∈ reportOrders .all "" reportStateW.db,
      o.status = .completed ∧ o.event_id = EVENT_ID ∧
        (RRange.all = .today → strGe o.created_at "" = true)) := by
  have h := c7_report_completed_only .all "" reportStateW "o2" "2025-08-02T00:00:00.000Z"
    reportOrder2 rfl (by decide)
    (fun o ho => by
      have hmem : o = exampleOrderRow ∨ o = reportOrder2 := by
        have h2 := (List.mem_filter.mp ho).1
        simpa [reportStateW, exampleAdminState, exampleVoidState] using h2
      rcases hmem with rfl | rfl
      · exact ⟨⟨500, by decide⟩, ⟨83, by decide⟩, ⟨417, by decide⟩⟩
      · exact ⟨⟨800, by decide⟩, ⟨133, by decide⟩, ⟨667, by decide⟩⟩)
  exact ⟨h.2.2.2.1, h.2.2.2.2.1, h.2.2.2.2.2.2.2.1, h.2.2.1⟩

/-! ## C9 — sequencer short numbers under concurrency -/

/-- Running K atomic `next` calls for event `e` returns exactly the K
consecutive numbers after the prior counter value and advances the counter by
K, leaving every other event's counter untouched. -/
theorem runNexts_eq (e : String) (K : ℕ) : ∀ c : String → ℕ,
    (runNexts e c K).2 = List.range' (c e + 1) K ∧
    (runNexts e c K).1 e = c e + K ∧
    (∀ x, x ≠ e → (runNexts e c K).1 x = c x) := by
  induction K with
  | zero => intro c; exact ⟨rfl, rfl, fun x _ => rfl⟩
  | succ k ih =>
    intro c
    obtain ⟨h1, h2, h3⟩ := ih (Function.update c e (c e + 1))
    have hupd : Function.update c e (c e + 1) e = c e + 1 := Function.update_same e _ c
    refine ⟨?_, ?_, ?_⟩
    · show (seqNext e c).2 :: (runNexts e (Function.update c e (c e + 1)) k).2 = _
      rw [h1, hupd, List.range'_succ]
      rfl
    · show (runNexts e (Function.update c e (c e + 1)) k).1 e = c e + (k + 1)
      rw [h2, hupd]
      omega
    · intro x hx
      show (runNexts e (Function.update c e (c e + 1)) k).1 x = c x
      rw [h3 x hx, Function.update_noteq hx]

/-- C9: in the spec's model of the `next_receipt` sequencer — a per-event
atomic increment-and-read, so that any K concurrent invocations are
equivalent to K consecutive atomic steps — the K issued short numbers are
exactly the gapless range above the prior counter value, pairwise distinct
and strictly increasing, and each strictly greater than every previously
issued number (any number ≤ the prior counter value). -/
theorem c9_sequencer_numbers (e : String) (c : String → ℕ) (K : ℕ) :
    (runNexts e c K).2 = List.range' (c e + 1) K ∧
    (runNexts e c K).1 e = c e + K ∧
    (runNexts e c K).2.Pairwise (· < ·) ∧
    (runNexts e c K).2.Nodup ∧
    (∀ m, m ≤ c e → ∀ n ∈ (runNexts e c K).2, m < n) := by
  obtain ⟨h1, h2, _⟩ := runNexts_eq e K c
  refine ⟨h1, h2, ?_, ?_, ?_⟩
  · rw [h1]
    exact List.pairwise_lt_range' _ _
  · rw [h1]
    exact List.nodup_range' _ _
  · intro m hm n hn
    rw [h1] at hn
    have := List.mem_range'.mp hn
    obtain ⟨i, _, rfl⟩ := this
    omega

/-- Witness for C9: two concurrent finalizes starting from counter 40 obtain
the consecutive short numbers 41 and 42, both above every previously issued
number. -/
theorem c9_sequencer_numbers_witness :
    (runNexts "ev" (fun _ => 40) 2).2 = [41, 42] ∧
    (runNexts "ev" (fun _ => 40) 2).1 "ev" = 42 ∧
    (runNexts "ev" (fun _ => 40) 2).2.Pairwise (· < ·) ∧
    (runNexts "ev" (fun _ => 40) 2).2.Nodup ∧
    (∀ n ∈ (runNexts "ev" (fun _ => 40) 2).2, 40 < n) := by
  have h := c9_sequencer_numbers "ev" (fun _ => 40) 2
  exact ⟨by rw [h.1]; rfl, h.2.1, h.2.2.1, h.2.2.2.1, h.2.2.2.2 40 (le_refl 40)⟩

end Festkassa
